import Mathlib

/-!
# minectl-sdk provider adapters: Hetzner and Vultr

A shallow embedding of `cloud/hetzner/hetzner.go` and `cloud/vultr/vultr.go`.

The provider SDK clients (`hcloud.Client`, `govultr.Client`) are external
services.  Each SDK call the adapters make is answered by an environment
record (`HEnv`, `VEnv`), and every call that is made is logged together with
the answer it got, so that an execution of an adapter method is a pair of a
call log and an outcome.  The two polling loops have no bound in the source;
they are run with a fuel counter and report `running` when the fuel is spent
with the loop still going round.
-/

namespace Minectl

/-- Go `error` values. -/
abbrev Error := String

/-- The struct `automation.ResourceResults`. -/
structure ResourceResults where
  ID : String
  Name : String
  Region : String
  PublicIP : String
  Tags : String
  deriving DecidableEq, Repr

/-- The getters of `args.MinecraftResource` and the fields of
`automation.ServerArgs` that the adapters read. -/
structure ServerArgs where
  name : String
  region : String
  size : String
  edition : String
  volumeSize : Int
  proxyServer : Bool
  sshPort : Int
  sshPrivateKeyPath : String
  deriving DecidableEq, Repr

/-- Go `strings.Join(xs, sep)`. -/
def stringsJoin (xs : List String) (sep : String) : String :=
  sep.intercalate xs

/-- Go `strings.Contains(s, substr)`: `substr` occurs in `s` as a contiguous block. -/
def stringsContains (s substr : String) : Bool :=
  decide (substr.data <:+: s.data)

/-- The answer of an SDK call that returns a value and an error. -/
inductive Resp (α : Type) where
  | ok (a : α)
  | error (err : Error)
  deriving DecidableEq, Repr

/-- The error of an answer, if it is one. -/
def Resp.err {α : Type} : Resp α → Option Error
  | .ok _ => none
  | .error err => some err

/-- How a method call ends: it returns a value, it panics (nil dereference),
or it is still inside a polling loop when the fuel runs out. -/
inductive Outcome (α : Type) where
  | returned (a : α)
  | panicked
  | running
  deriving DecidableEq, Repr

/-- How a polling loop ends: the loop condition became false (`done`), the
enclosing function returned an error from inside the loop (`failed`), a nil
record was dereferenced (`panicked`), or the fuel ran out (`running`). -/
inductive LoopExit (α : Type) where
  | done (a : α)
  | failed (e : Error)
  | panicked
  | running
  deriving DecidableEq, Repr

/-! ## Hetzner: records of the hcloud SDK -/

/-- The fields of `hcloud.Server` read by the adapter.  `Location` is
`Datacenter.Location.Name`, `PublicIP` is `PublicNet.IPv4.IP.String()`, and
`Labels` is the Go map `map[string]string` written as the list of its entries
in the order a `range` statement visits them (Go leaves that order open). -/
structure HServer where
  ID : Int
  Name : String
  Location : String
  PublicIP : String
  Labels : List (String × String)
  Status : String
  deriving DecidableEq, Repr

/-- The function `hetznerLabelsToTags`. -/
def hetznerLabelsToTags (label : List (String × String)) : String :=
  stringsJoin (label.foldl (fun tags kv => tags ++ [kv.1]) []) ","

/-- The `automation.ResourceResults` literal built from an `hcloud.Server`
in `CreateServer`, `ListServer` and `GetServer`. -/
def hetznerResult (server : HServer) : ResourceResults :=
  { ID := toString server.ID
    Name := server.Name
    Region := server.Location
    PublicIP := server.PublicIP
    Tags := hetznerLabelsToTags server.Labels }

/-- The body of `Hetzner.ListServer` after the call `h.client.Server.All`,
whose answer is `servers`; `InstanceTag` is the constant `common.InstanceTag`. -/
def Hetzner.ListServer (InstanceTag : String) (servers : Resp (List HServer)) :
    Option (List ResourceResults) × Option Error :=
  match servers with
  | .error err => (none, some err)
  | .ok servers =>
    (some (servers.foldl (fun result server =>
      server.Labels.foldl (fun result kv =>
        if kv.1 = InstanceTag then result ++ [hetznerResult server] else result) result) []),
     none)

/-! ## Vultr: records of the govultr SDK -/

/-- The fields of `govultr.Instance` read by the adapter. -/
structure VInstance where
  ID : String
  Label : String
  Region : String
  MainIP : String
  Tags : List String
  Status : String
  deriving DecidableEq, Repr

/-- The `automation.ResourceResults` literal built from a `govultr.Instance`
in `CreateServer`, `ListServer` and `GetServer`. -/
def vultrResult (inst : VInstance) : ResourceResults :=
  { ID := inst.ID
    Name := inst.Label
    Region := inst.Region
    PublicIP := inst.MainIP
    Tags := stringsJoin inst.Tags "," }

/-- The body of `Vultr.ListServer` after the call `v.client.Instance.List`,
whose answer is `instances`; `InstanceTag` is the constant `common.InstanceTag`. -/
def Vultr.ListServer (InstanceTag : String) (instances : Resp (List VInstance)) :
    Option (List ResourceResults) × Option Error :=
  match instances with
  | .error err => (none, some err)
  | .ok instances =>
    (some (instances.foldl (fun result inst =>
      inst.Tags.foldl (fun result tag =>
        if stringsContains tag InstanceTag then result ++ [vultrResult inst] else result)
        result) []),
     none)

/-- An instance bears the ownership tag: one of its labels has the key `InstanceTag`. -/
def HServer.owned (InstanceTag : String) (server : HServer) : Prop :=
  ∃ kv ∈ server.Labels, kv.1 = InstanceTag

/-- An instance bears the ownership tag: one of its tags equals `InstanceTag`. -/
def VInstance.owned (InstanceTag : String) (inst : VInstance) : Prop :=
  InstanceTag ∈ inst.Tags

instance (t : String) (s : HServer) : Decidable (s.owned t) := by
  unfold HServer.owned; infer_instance

instance (t : String) (i : VInstance) : Decidable (i.owned t) := by
  unfold VInstance.owned; infer_instance

/-! ## Hetzner: the SDK as an environment -/

/-- The constant `hcloud.ServerStatusRunning` of the hcloud SDK. -/
def ServerStatusRunning : String := "running"

/-- The record `hcloud.SSHKey`. -/
structure HSSHKey where
  ID : Int
  Name : String
  deriving DecidableEq, Repr

/-- The record `hcloud.Location`. -/
structure HLocation where
  Name : String
  deriving DecidableEq, Repr

/-- The record `hcloud.Volume`. -/
structure HVolume where
  ID : Int
  Name : String
  deriving DecidableEq, Repr

/-- The record `hcloud.Image`. -/
structure HImage where
  Name : String
  deriving DecidableEq, Repr

/-- The record `hcloud.ServerType`. -/
structure HServerType where
  Name : String
  deriving DecidableEq, Repr

/-- The record `hcloud.Action`. -/
structure HAction where
  ID : Int
  Status : String
  deriving DecidableEq, Repr

/-- The struct `hcloud.VolumeCreateOpts` as filled in by `CreateServer`. -/
structure HVolumeCreateOpts where
  Name : String
  Size : Int
  Location : Option HLocation
  Format : String
  deriving DecidableEq, Repr

/-- The struct `hcloud.VolumeCreateResult`; `Volume` is a pointer, nil in the
zero value. -/
structure HVolumeCreateResult where
  Volume : Option HVolume
  deriving DecidableEq, Repr

/-- The struct `hcloud.ServerCreateOpts` as filled in by `CreateServer`. -/
structure HServerCreateOpts where
  Name : String
  ServerType : Option HServerType
  Image : Option HImage
  Location : Option HLocation
  SSHKeys : List HSSHKey
  UserData : String
  Labels : List (String × String)
  Volumes : List (Option HVolume)
  Automount : Option Bool
  deriving DecidableEq, Repr

/-- One call on `h.client` together with the answer it got.  Lookups return
a pointer that is nil when the provider has no such record; the delete calls
are logged with the record they are handed, which is not nil when the call
is made at all. -/
inductive HEvent where
  | sshKeyCreate (name publicKey : String) (r : Resp HSSHKey)
  | locationGet (idOrName : String) (r : Resp (Option HLocation))
  | volumeCreate (opts : HVolumeCreateOpts) (r : Resp HVolumeCreateResult)
  | imageGetByName (name : String) (r : Resp (Option HImage))
  | serverTypeGetByName (name : String) (r : Resp (Option HServerType))
  | serverCreate (opts : HServerCreateOpts) (r : Resp HServer)
  | serverGetByID (id : Int) (r : Resp (Option HServer))
  | volumeGet (idOrName : String) (r : Resp (Option HVolume))
  | volumeDetach (volume : HVolume) (r : Resp HAction)
  | actionGetByID (id : Int) (r : Resp (Option HAction))
  | volumeDelete (volume : HVolume) (r : Option Error)
  | serverDelete (server : HServer) (r : Option Error)
  | sshKeyGet (idOrName : String) (r : Resp (Option HSSHKey))
  | sshKeyDelete (key : HSSHKey) (r : Option Error)
  deriving DecidableEq, Repr

/-- The error a logged call returned, if any. -/
def HEvent.err : HEvent → Option Error
  | .sshKeyCreate _ _ r => r.err
  | .locationGet _ r => r.err
  | .volumeCreate _ r => r.err
  | .imageGetByName _ r => r.err
  | .serverTypeGetByName _ r => r.err
  | .serverCreate _ r => r.err
  | .serverGetByID _ r => r.err
  | .volumeGet _ r => r.err
  | .volumeDetach _ r => r.err
  | .actionGetByID _ r => r.err
  | .volumeDelete _ r => r
  | .serverDelete _ r => r
  | .sshKeyGet _ r => r.err
  | .sshKeyDelete _ r => r

/-- What lies outside `hetzner.go`: the constant `common.InstanceTag`,
`strconv.Atoi`, `cloud.GetSSHPublicKey`, the template engine, and the answers
of the hcloud API.  The two calls that are repeated in a polling loop take the
number of the poll as first argument, so the answer may change over time. -/
structure HEnv where
  InstanceTag : String
  atoi : String → Int
  getSSHPublicKey : ServerArgs → Resp String
  templateCloudConfigName : Bool → String
  getTemplate : ServerArgs → (mount : String) → (name : String) → Resp String
  sshKeyCreate : String → String → Resp HSSHKey
  locationGet : String → Resp (Option HLocation)
  volumeCreate : HVolumeCreateOpts → Resp HVolumeCreateResult
  imageGetByName : String → Resp (Option HImage)
  serverTypeGetByName : String → Resp (Option HServerType)
  serverCreate : HServerCreateOpts → Resp HServer
  serverGetByID : Nat → Int → Resp (Option HServer)
  volumeGet : String → Resp (Option HVolume)
  volumeDetach : HVolume → Resp HAction
  actionGetByID : Nat → Int → Resp (Option HAction)
  volumeDelete : HVolume → Option Error
  serverDelete : HServer → Option Error
  sshKeyGet : String → Resp (Option HSSHKey)
  sshKeyDelete : HSSHKey → Option Error

/-- An execution: the calls made, in order, and how the method ended. -/
abbrev Run (ε α : Type) := List ε × Outcome α

/-- The result type `(*automation.ResourceResults, error)`. -/
abbrev CreateResult := Option ResourceResults × Option Error

/-- The loop `for stillCreating` of `Hetzner.CreateServer`.  The `server`
and `err` assigned by `:=` inside the body are new variables of the body's
scope; `id` is `server.ID` of the enclosing function's `server`, which the
loop never assigns.  `n` counts the polls made so far. -/
def Hetzner.createPoll (env : HEnv) (id : Int) : (fuel n : Nat) → List HEvent × LoopExit Unit
  | 0, _ => ([], .running)
  | fuel + 1, n =>
    let r := env.serverGetByID n id
    match r with
    | .error err => ([.serverGetByID id r], .failed err)
    | .ok none => ([.serverGetByID id r], .panicked)
    | .ok (some server) =>
      if server.Status = ServerStatusRunning then ([.serverGetByID id r], .done ())
      else
        let rest := Hetzner.createPoll env id fuel (n + 1)
        (.serverGetByID id r :: rest.1, rest.2)

/-- The value of `requestOpts` in `Hetzner.CreateServer` when it is passed to
`h.client.Server.Create`: the struct literal, with `Volumes` and `Automount`
set afterwards when the volume size is positive.  The map literal of `Labels`
has one entry when the edition equals `common.InstanceTag`. -/
def Hetzner.requestOpts (env : HEnv) (args : ServerArgs) (key : HSSHKey)
    (location : Option HLocation) (volume : HVolumeCreateResult) (userData : String)
    (image : Option HImage) (plan : Option HServerType) : HServerCreateOpts :=
  let requestOpts : HServerCreateOpts :=
    { Name := args.name
      ServerType := plan
      Image := image
      Location := location
      SSHKeys := [key]
      UserData := userData
      Labels := if args.edition = env.InstanceTag then [(env.InstanceTag, "true")]
                else [(env.InstanceTag, "true"), (args.edition, "true")]
      Volumes := []
      Automount := none }
  if args.volumeSize > 0 then
    { requestOpts with Volumes := [volume.Volume], Automount := some true }
  else requestOpts

/-- The part of `Hetzner.CreateServer` from the call of `h.tmpl.GetTemplate`
to the end; `pre` is the log so far. -/
def Hetzner.createInstance (env : HEnv) (args : ServerArgs) (fuel : Nat) (pre : List HEvent)
    (key : HSSHKey) (location : Option HLocation) (volume : HVolumeCreateResult)
    (mount : String) : Run HEvent CreateResult :=
  match env.getTemplate args mount (env.templateCloudConfigName args.proxyServer) with
  | .error err => (pre, .returned (none, some err))
  | .ok userData =>
  let e1 := HEvent.imageGetByName "ubuntu-22.04" (env.imageGetByName "ubuntu-22.04")
  match env.imageGetByName "ubuntu-22.04" with
  | .error err => (pre ++ [e1], .returned (none, some err))
  | .ok image =>
  let e2 := HEvent.serverTypeGetByName args.size (env.serverTypeGetByName args.size)
  match env.serverTypeGetByName args.size with
  | .error err => (pre ++ [e1, e2], .returned (none, some err))
  | .ok plan =>
  let requestOpts := Hetzner.requestOpts env args key location volume userData image plan
  let e3 := HEvent.serverCreate requestOpts (env.serverCreate requestOpts)
  match env.serverCreate requestOpts with
  | .error err => (pre ++ [e1, e2, e3], .returned (none, some err))
  | .ok server =>
  let poll := Hetzner.createPoll env server.ID fuel 0
  match poll.2 with
  | .failed err => (pre ++ [e1, e2, e3] ++ poll.1, .returned (none, some err))
  | .panicked => (pre ++ [e1, e2, e3] ++ poll.1, .panicked)
  | .running => (pre ++ [e1, e2, e3] ++ poll.1, .running)
  | .done _ => (pre ++ [e1, e2, e3] ++ poll.1, .returned (some (hetznerResult server), none))

/-- The method `Hetzner.CreateServer`. -/
def Hetzner.CreateServer (env : HEnv) (args : ServerArgs) (fuel : Nat) :
    Run HEvent CreateResult :=
  match env.getSSHPublicKey args with
  | .error err => ([], .returned (none, some err))
  | .ok publicKey =>
  let e1 := HEvent.sshKeyCreate (args.name ++ "-ssh") publicKey
    (env.sshKeyCreate (args.name ++ "-ssh") publicKey)
  match env.sshKeyCreate (args.name ++ "-ssh") publicKey with
  | .error err => ([e1], .returned (none, some err))
  | .ok key =>
  let e2 := HEvent.locationGet args.region (env.locationGet args.region)
  match env.locationGet args.region with
  | .error err => ([e1, e2], .returned (none, some err))
  | .ok location =>
  if args.volumeSize > 0 then
    let opts : HVolumeCreateOpts :=
      { Name := args.name ++ "-vol", Size := args.volumeSize, Location := location,
        Format := "ext4" }
    let e3 := HEvent.volumeCreate opts (env.volumeCreate opts)
    match env.volumeCreate opts with
    | .error err => ([e1, e2, e3], .returned (none, some err))
    | .ok volume => Hetzner.createInstance env args fuel [e1, e2, e3] key location volume "sdb"
  else
    Hetzner.createInstance env args fuel [e1, e2] key location { Volume := none } ""

/-- The loop `for stillDetatching` of `Hetzner.DeleteServer`; `id` is
`res.ID` of the action returned by the detach call and `n` counts the polls
made so far. -/
def Hetzner.detachPoll (env : HEnv) (id : Int) : (fuel n : Nat) → List HEvent × LoopExit Unit
  | 0, _ => ([], .running)
  | fuel + 1, n =>
    let r := env.actionGetByID n id
    match r with
    | .error err => ([.actionGetByID id r], .failed err)
    | .ok none => ([.actionGetByID id r], .panicked)
    | .ok (some action) =>
      if action.Status = "success" then ([.actionGetByID id r], .done ())
      else
        let rest := Hetzner.detachPoll env id fuel (n + 1)
        (.actionGetByID id r :: rest.1, rest.2)

/-- The part of `Hetzner.DeleteServer` from the call of `h.client.Server.Delete`
to the end; `pre` is the log so far.  `Server.Delete` and `SSHKey.Delete` of
the hcloud client read the `ID` of the record they are handed, so a nil
`server` or a nil `key` is a nil dereference: the method panics there, no
request is sent and no call is logged. -/
def Hetzner.deleteInstance (env : HEnv) (args : ServerArgs) (pre : List HEvent)
    (server : Option HServer) : Run HEvent (Option Error) :=
  match server with
  | none => (pre, .panicked)
  | some server =>
  let e1 := HEvent.serverDelete server (env.serverDelete server)
  match env.serverDelete server with
  | some err => (pre ++ [e1], .returned (some err))
  | none =>
  let e2 := HEvent.sshKeyGet (args.name ++ "-ssh") (env.sshKeyGet (args.name ++ "-ssh"))
  match env.sshKeyGet (args.name ++ "-ssh") with
  | .error err => (pre ++ [e1, e2], .returned (some err))
  | .ok none => (pre ++ [e1, e2], .panicked)
  | .ok (some key) =>
  let e3 := HEvent.sshKeyDelete key (env.sshKeyDelete key)
  match env.sshKeyDelete key with
  | some err => (pre ++ [e1, e2, e3], .returned (some err))
  | none => (pre ++ [e1, e2, e3], .returned none)

/-- The method `Hetzner.DeleteServer`. -/
def Hetzner.DeleteServer (env : HEnv) (id : String) (args : ServerArgs) (fuel : Nat) :
    Run HEvent (Option Error) :=
  let serverID := env.atoi id
  let e1 := HEvent.serverGetByID serverID (env.serverGetByID 0 serverID)
  match env.serverGetByID 0 serverID with
  | .error err => ([e1], .returned (some err))
  | .ok server =>
  let e2 := HEvent.volumeGet (args.name ++ "-vol") (env.volumeGet (args.name ++ "-vol"))
  match env.volumeGet (args.name ++ "-vol") with
  | .error err => ([e1, e2], .returned (some err))
  | .ok none => Hetzner.deleteInstance env args [e1, e2] server
  | .ok (some volume) =>
  let e3 := HEvent.volumeDetach volume (env.volumeDetach volume)
  match env.volumeDetach volume with
  | .error err => ([e1, e2, e3], .returned (some err))
  | .ok res =>
  let poll := Hetzner.detachPoll env res.ID fuel 0
  match poll.2 with
  | .failed err => ([e1, e2, e3] ++ poll.1, .returned (some err))
  | .panicked => ([e1, e2, e3] ++ poll.1, .panicked)
  | .running => ([e1, e2, e3] ++ poll.1, .running)
  | .done _ =>
  let e4 := HEvent.volumeDelete volume (env.volumeDelete volume)
  match env.volumeDelete volume with
  | some err => ([e1, e2, e3] ++ poll.1 ++ [e4], .returned (some err))
  | none => Hetzner.deleteInstance env args ([e1, e2, e3] ++ poll.1 ++ [e4]) server

/-! ## Vultr: the SDK as an environment -/

/-- The record `govultr.SSHKey`. -/
structure VSSHKey where
  ID : String
  Name : String
  deriving DecidableEq, Repr

/-- The record `govultr.StartupScript`. -/
structure VStartupScript where
  ID : String
  deriving DecidableEq, Repr

/-- The struct `govultr.InstanceCreateReq` as filled in by `CreateServer`. -/
structure VInstanceCreateReq where
  SSHKeys : List String
  ScriptID : String
  Hostname : String
  Label : String
  Region : String
  Plan : String
  OsID : Int
  Tags : List String
  deriving DecidableEq, Repr

/-- One call on `v.client` together with the answer it got. -/
inductive VEvent where
  | sshKeyCreate (sshKey name : String) (r : Resp VSSHKey)
  | startupScriptCreate (script name type : String) (r : Resp VStartupScript)
  | instanceCreate (opts : VInstanceCreateReq) (r : Resp VInstance)
  | instanceGet (id : String) (r : Resp (Option VInstance))
  | sshKeyList (r : Resp (List VSSHKey))
  | sshKeyDelete (id : String) (r : Option Error)
  | instanceDelete (id : String) (r : Option Error)
  deriving DecidableEq, Repr

/-- The error a logged call returned, if any. -/
def VEvent.err : VEvent → Option Error
  | .sshKeyCreate _ _ r => r.err
  | .startupScriptCreate _ _ _ r => r.err
  | .instanceCreate _ r => r.err
  | .instanceGet _ r => r.err
  | .sshKeyList r => r.err
  | .sshKeyDelete _ r => r
  | .instanceDelete _ r => r

/-- What lies outside `vultr.go`: the constant `common.InstanceTag`,
`cloud.GetSSHPublicKey`, the template engine, base64 encoding, and the answers
of the Vultr API.  `instanceGet` is repeated in a polling loop and takes the
number of the poll as first argument. -/
structure VEnv where
  InstanceTag : String
  getSSHPublicKey : ServerArgs → Resp String
  templateBashName : Bool → String
  getTemplate : ServerArgs → (mount : String) → (name : String) → Resp String
  base64 : String → String
  sshKeyCreate : String → String → Resp VSSHKey
  startupScriptCreate : String → String → String → Resp VStartupScript
  instanceCreate : VInstanceCreateReq → Resp VInstance
  instanceGet : Nat → String → Resp (Option VInstance)
  sshKeyList : Resp (List VSSHKey)
  sshKeyDelete : String → Option Error
  instanceDelete : String → Option Error

/-- The loop `for stillCreating` of `Vultr.CreateServer`.  The body assigns
the enclosing function's `instance` with `=`, so `inst` is the record of the
latest poll (of the create call before the first one). -/
def Vultr.createPoll (env : VEnv) : (fuel n : Nat) → (inst : VInstance) →
    List VEvent × LoopExit VInstance
  | 0, _, _ => ([], .running)
  | fuel + 1, n, inst =>
    let r := env.instanceGet n inst.ID
    match r with
    | .error err => ([.instanceGet inst.ID r], .failed err)
    | .ok none => ([.instanceGet inst.ID r], .panicked)
    | .ok (some fetched) =>
      if fetched.Status = "active" then ([.instanceGet inst.ID r], .done fetched)
      else
        let rest := Vultr.createPoll env fuel (n + 1) fetched
        (.instanceGet inst.ID r :: rest.1, rest.2)

/-- The method `Vultr.CreateServer`. -/
def Vultr.CreateServer (env : VEnv) (args : ServerArgs) (fuel : Nat) :
    Run VEvent CreateResult :=
  match env.getSSHPublicKey args with
  | .error err => ([], .returned (none, some err))
  | .ok publicKey =>
  let e1 := VEvent.sshKeyCreate publicKey (args.name ++ "-ssh")
    (env.sshKeyCreate publicKey (args.name ++ "-ssh"))
  match env.sshKeyCreate publicKey (args.name ++ "-ssh") with
  | .error err => ([e1], .returned (none, some err))
  | .ok sshKey =>
  match env.getTemplate args "" (env.templateBashName args.proxyServer) with
  | .error err => ([e1], .returned (none, some err))
  | .ok script =>
  let e2 := VEvent.startupScriptCreate (env.base64 script) (args.name ++ "-stackscript") "boot"
    (env.startupScriptCreate (env.base64 script) (args.name ++ "-stackscript") "boot")
  match env.startupScriptCreate (env.base64 script) (args.name ++ "-stackscript") "boot" with
  | .error err => ([e1, e2], .returned (none, some err))
  | .ok startupScript =>
  let ubuntu2204Id : Int := 1743
  let opts : VInstanceCreateReq :=
    { SSHKeys := [sshKey.ID]
      ScriptID := startupScript.ID
      Hostname := args.name
      Label := args.name
      Region := args.region
      Plan := args.size
      OsID := ubuntu2204Id
      Tags := [env.InstanceTag, args.edition] }
  let e3 := VEvent.instanceCreate opts (env.instanceCreate opts)
  match env.instanceCreate opts with
  | .error err => ([e1, e2, e3], .returned (none, some err))
  | .ok created =>
  let poll := Vultr.createPoll env fuel 0 created
  match poll.2 with
  | .failed err => ([e1, e2, e3] ++ poll.1, .returned (none, some err))
  | .panicked => ([e1, e2, e3] ++ poll.1, .panicked)
  | .running => ([e1, e2, e3] ++ poll.1, .running)
  | .done inst => ([e1, e2, e3] ++ poll.1, .returned (some (vultrResult inst), none))

/-- The loop `for _, sshKey := range sshKeys` of `Vultr.DeleteServer`: the
first key with the derived name is deleted and the loop is left by `break`;
`some err` means the method returns `err` from inside the loop. -/
def Vultr.deleteKey (env : VEnv) (args : ServerArgs) : List VSSHKey → List VEvent × Option Error
  | [] => ([], none)
  | sshKey :: rest =>
    if sshKey.Name = args.name ++ "-ssh" then
      ([.sshKeyDelete sshKey.ID (env.sshKeyDelete sshKey.ID)], env.sshKeyDelete sshKey.ID)
    else Vultr.deleteKey env args rest

/-- The method `Vultr.DeleteServer`. -/
def Vultr.DeleteServer (env : VEnv) (id : String) (args : ServerArgs) :
    Run VEvent (Option Error) :=
  let e1 := VEvent.sshKeyList env.sshKeyList
  match env.sshKeyList with
  | .error err => ([e1], .returned (some err))
  | .ok sshKeys =>
  let loop := Vultr.deleteKey env args sshKeys
  match loop.2 with
  | some err => ([e1] ++ loop.1, .returned (some err))
  | none =>
  let e2 := VEvent.instanceDelete id (env.instanceDelete id)
  match env.instanceDelete id with
  | some err => ([e1] ++ loop.1 ++ [e2], .returned (some err))
  | none => ([e1] ++ loop.1 ++ [e2], .returned none)

/-! ## Call logs -/

/-- A log whose first failing call, if there is one, is its last call and
whose outcome is then the return of that call's error. -/
def Aborts {ε : Type} (err : ε → Option Error) (out : Outcome (Option Error)) : List ε → Prop
  | [] => True
  | ev :: rest =>
    match err ev with
    | none => Aborts err out rest
    | some e => rest = [] ∧ out = .returned (some e)

/-! ## Concrete providers -/

/-- The descriptor of the end-to-end scenario: a standard server `mc1` with a
volume of size 10. -/
def mc1 : ServerArgs :=
  { name := "mc1", region := "fsn1", size := "cpx11", edition := "java", volumeSize := 10,
    proxyServer := false, sshPort := 22, sshPrivateKeyPath := "id_rsa" }

/-- The server record as the create request returns it: not yet running, no address. -/
def hServerCreated : HServer :=
  ⟨7, "mc1", "fsn1", "", [("minectl", "true"), ("java", "true")], "initializing"⟩

/-- The server record once the provider reports it running. -/
def hServerRunning : HServer :=
  ⟨7, "mc1", "fsn1", "192.0.2.10", [("minectl", "true"), ("java", "true")], "running"⟩

/-- A Hetzner account in which every call succeeds: the server is reported
running from the second poll on, the detach action succeeds at the second poll. -/
def hetznerOK : HEnv :=
  { InstanceTag := "minectl"
    atoi := fun s => if s = "7" then 7 else 0
    getSSHPublicKey := fun _ => .ok "ssh-ed25519 AAAA"
    templateCloudConfigName := fun proxy => if proxy then "proxy-cloud-config" else "cloud-config"
    getTemplate := fun _ mount _ => .ok ("#cloud-config " ++ mount)
    sshKeyCreate := fun name _ => .ok ⟨3, name⟩
    locationGet := fun name => .ok (some ⟨name⟩)
    volumeCreate := fun opts => .ok ⟨some ⟨5, opts.Name⟩⟩
    imageGetByName := fun name => .ok (some ⟨name⟩)
    serverTypeGetByName := fun name => .ok (some ⟨name⟩)
    serverCreate := fun _ => .ok hServerCreated
    serverGetByID := fun n _ => if n = 0 then .ok (some hServerCreated) else .ok (some hServerRunning)
    volumeGet := fun name => .ok (some ⟨5, name⟩)
    volumeDetach := fun _ => .ok ⟨31, "running"⟩
    actionGetByID := fun n id => if n = 0 then .ok (some ⟨id, "running"⟩) else .ok (some ⟨id, "success"⟩)
    volumeDelete := fun _ => none
    serverDelete := fun _ => none
    sshKeyGet := fun name => .ok (some ⟨3, name⟩)
    sshKeyDelete := fun _ => none }

/-- The account `hetznerOK` with a server that cannot be deleted. -/
def hetznerServerLocked : HEnv :=
  { hetznerOK with serverDelete := fun _ => some "server is locked" }

/-- A Vultr account in which every call succeeds: two SSH keys are listed,
the second under the derived name, and the instance is active from the second
poll on. -/
def vultrOK : VEnv :=
  { InstanceTag := "minectl"
    getSSHPublicKey := fun _ => .ok "ssh-ed25519 AAAA"
    templateBashName := fun proxy => if proxy then "proxy-bash" else "bash"
    getTemplate := fun _ _ _ => .ok "#!/bin/bash"
    base64 := fun _ => "IyEvYmluL2Jhc2g="
    sshKeyCreate := fun _ name => .ok ⟨"k1", name⟩
    startupScriptCreate := fun _ _ _ => .ok ⟨"s1"⟩
    instanceCreate := fun opts => .ok ⟨"i-1", opts.Label, opts.Region, "0.0.0.0", opts.Tags, "pending"⟩
    instanceGet := fun n id =>
      if n = 0 then .ok (some ⟨id, "mc1", "fsn1", "0.0.0.0", ["minectl", "java"], "pending"⟩)
      else .ok (some ⟨id, "mc1", "fsn1", "203.0.113.7", ["minectl", "java"], "active"⟩)
    sshKeyList := .ok [⟨"k0", "other-ssh"⟩, ⟨"k1", "mc1-ssh"⟩]
    sshKeyDelete := fun _ => none
    instanceDelete := fun _ => none }

/-- The account `vultrOK` without the instance that is to be deleted. -/
def vultrNoInstance : VEnv :=
  { vultrOK with instanceDelete := fun _ => some "instance not found" }

/-- The call is `h.client.Volume.Delete`. -/
def HEvent.isVolumeDelete : HEvent → Bool
  | .volumeDelete _ _ => true
  | _ => false

/-- The call is `h.client.SSHKey.Delete`. -/
def HEvent.isSSHKeyDelete : HEvent → Bool
  | .sshKeyDelete _ _ => true
  | _ => false

/-- The call is `h.client.Server.Create`. -/
def HEvent.isServerCreate : HEvent → Bool
  | .serverCreate _ _ => true
  | _ => false

/-- The call is `v.client.SSHKey.Delete`. -/
def VEvent.isSSHKeyDelete : VEvent → Bool
  | .sshKeyDelete _ _ => true
  | _ => false

/-- The account `hetznerOK` after the volume was removed out of band, as the
detach call reports it: the lookup still returns the volume, the detach call
answers not found. -/
def hetznerDetachNotFound : HEnv :=
  { hetznerOK with volumeDetach := fun _ => .error "volume not found" }

/-- The account `hetznerOK` after the volume was removed out of band, as the
lookup reports it: no volume under the derived name. -/
def hetznerNoVolume : HEnv :=
  { hetznerOK with volumeGet := fun _ => .ok none }

/-- The account `hetznerOK` with a detach action that has failed: every poll
reports the action in status `error`. -/
def hetznerDetachFailed : HEnv :=
  { hetznerOK with actionGetByID := fun _ id => .ok (some ⟨id, "error"⟩) }

/-- The account `hetznerOK` with a server lookup that fails. -/
def hetznerLookupFails : HEnv :=
  { hetznerOK with serverGetByID := fun _ _ => .error "service unavailable" }

/-- The account `hetznerOK` with the volume quota used up. -/
def hetznerVolumeLimit : HEnv :=
  { hetznerOK with volumeCreate := fun _ => .error "volume limit exceeded" }

/-! ## ListServer -/

theorem stringsContains_append (s t : String) : stringsContains (s ++ t) s = true := by
  simp only [stringsContains, String.data_append, decide_eq_true_eq]
  exact (List.prefix_append _ _).isInfix

theorem stringsContains_self (s : String) : stringsContains s s = true := by
  simp [stringsContains]

theorem append_ne_self (s t : String) (h : t ≠ "") : s ++ t ≠ s := by
  intro hst
  have hlen := congrArg String.length hst
  rw [String.length_append] at hlen
  have : t.length = 0 := by omega
  cases t with
  | mk d =>
    have hd : d = [] := List.length_eq_zero.mp this
    subst hd
    exact h rfl

theorem foldl_append_if {α β : Type} (p : α → Bool) (r : β) (l : List α) (acc : List β) :
    l.foldl (fun result x => if p x then result ++ [r] else result) acc
      = acc ++ List.replicate (l.countP p) r := by
  induction l generalizing acc with
  | nil => simp
  | cons x xs ih =>
    rw [List.foldl_cons, ih, List.countP_cons]
    by_cases hx : p x = true
    · simp [hx, List.replicate_succ]
    · simp [hx]

theorem foldl_foldl_append_if {α β γ : Type} (tags : α → List γ) (p : γ → Bool) (f : α → β)
    (l : List α) (acc : List β) :
    l.foldl (fun result x =>
        (tags x).foldl (fun result t => if p t then result ++ [f x] else result) result) acc
      = acc ++ l.flatMap (fun x => List.replicate ((tags x).countP p) (f x)) := by
  induction l generalizing acc with
  | nil => simp
  | cons x xs ih =>
    rw [List.foldl_cons, foldl_append_if, ih]
    simp

theorem Hetzner_ListServer_ok (InstanceTag : String) (servers : List HServer) :
    Hetzner.ListServer InstanceTag (.ok servers)
      = (some (servers.flatMap (fun s =>
          List.replicate (s.Labels.countP (fun kv => decide (kv.1 = InstanceTag)))
            (hetznerResult s))), none) := by
  have h := foldl_foldl_append_if HServer.Labels (fun kv => decide (kv.1 = InstanceTag))
    hetznerResult servers []
  simp only [decide_eq_true_eq, List.nil_append] at h
  simp only [Hetzner.ListServer, h]

theorem Vultr_ListServer_ok (InstanceTag : String) (instances : List VInstance) :
    Vultr.ListServer InstanceTag (.ok instances)
      = (some (instances.flatMap (fun i =>
          List.replicate (i.Tags.countP (fun tag => stringsContains tag InstanceTag))
            (vultrResult i))), none) := by
  have h := foldl_foldl_append_if VInstance.Tags (fun tag => stringsContains tag InstanceTag)
    vultrResult instances []
  simp only [List.nil_append] at h
  simp only [Vultr.ListServer, h]

theorem countP_key_le_one (InstanceTag : String) (labels : List (String × String))
    (h : (labels.map Prod.fst).Nodup) :
    labels.countP (fun kv => decide (kv.1 = InstanceTag)) ≤ 1 := by
  have h1 : labels.countP (fun kv => decide (kv.1 = InstanceTag))
      = (labels.map Prod.fst).count InstanceTag := by
    rw [List.count, List.countP_map]
    apply List.countP_congr
    intro kv _
    simp
  rw [h1]
  exact List.nodup_iff_count_le_one.mp h InstanceTag

/-- The Hetzner half of C1: every entry `Hetzner.ListServer` returns is the
normalization of a server of the provider's list that has a label whose key
equals `common.InstanceTag`. -/
theorem Hetzner_ListServer_only_owned (InstanceTag : String) (servers : List HServer)
    (result : List ResourceResults)
    (h : (Hetzner.ListServer InstanceTag (.ok servers)).1 = some result) :
    ∀ r ∈ result, ∃ s ∈ servers, s.owned InstanceTag ∧ r = hetznerResult s := by
  rw [Hetzner_ListServer_ok] at h
  simp only [Option.some.injEq] at h
  subst h
  intro r hr
  simp only [List.mem_flatMap] at hr
  obtain ⟨s, hs, hrs⟩ := hr
  have hmem := List.mem_replicate.mp hrs
  refine ⟨s, hs, ?_, hmem.2⟩
  have hpos : 0 < s.Labels.countP (fun kv => decide (kv.1 = InstanceTag)) :=
    Nat.pos_of_ne_zero hmem.1
  obtain ⟨kv, hkv, hk⟩ := List.countP_pos_iff.mp hpos
  exact ⟨kv, hkv, by simpa using hk⟩

/-- The Hetzner half of C10: when the label keys of every server are distinct
(they are the keys of a Go map), `Hetzner.ListServer` returns the normalization
of the sub-list of the servers that bear the ownership label, in the
provider's order. -/
theorem Hetzner_ListServer_eq_filter (InstanceTag : String) (servers : List HServer)
    (hmap : ∀ s ∈ servers, (s.Labels.map Prod.fst).Nodup) :
    Hetzner.ListServer InstanceTag (.ok servers)
      = (some ((servers.filter (fun s => decide (s.owned InstanceTag))).map hetznerResult),
         none) := by
  rw [Hetzner_ListServer_ok]
  congr 2
  induction servers with
  | nil => rfl
  | cons s rest ih =>
    have hs := countP_key_le_one InstanceTag s.Labels (hmap s (List.mem_cons_self _ _))
    have hrest := ih (fun x hx => hmap x (List.mem_cons_of_mem _ hx))
    rw [List.flatMap_cons, hrest, List.filter_cons]
    by_cases ho : s.owned InstanceTag
    · have hpos : 0 < s.Labels.countP (fun kv => decide (kv.1 = InstanceTag)) := by
        obtain ⟨kv, hkv, hk⟩ := ho
        exact List.countP_pos_iff.mpr ⟨kv, hkv, by simpa using hk⟩
      have h1 : s.Labels.countP (fun kv => decide (kv.1 = InstanceTag)) = 1 := by omega
      simp [ho, h1]
    · have h0 : s.Labels.countP (fun kv => decide (kv.1 = InstanceTag)) = 0 := by
        by_contra hne
        obtain ⟨kv, hkv, hk⟩ := List.countP_pos_iff.mp (Nat.pos_of_ne_zero hne)
        exact ho ⟨kv, hkv, by simpa using hk⟩
      simp [ho, h0]

theorem Hetzner_ListServer_eq_filter_witness :
    (∀ s ∈ [(⟨7, "mc1", "fsn1", "192.0.2.1", [("minectl", "true"), ("java", "true")],
              "running"⟩ : HServer)], (s.Labels.map Prod.fst).Nodup) ∧
    Hetzner.ListServer "minectl"
        (.ok [⟨7, "mc1", "fsn1", "192.0.2.1", [("minectl", "true"), ("java", "true")],
              "running"⟩])
      = (some ((([⟨7, "mc1", "fsn1", "192.0.2.1", [("minectl", "true"), ("java", "true")],
              "running"⟩] : List HServer).filter
              (fun s => decide (s.owned "minectl"))).map hetznerResult), none) :=
  ⟨by decide, Hetzner_ListServer_eq_filter "minectl" _ (by decide)⟩

/-- Claim C1, at the input where the code departs from it: for whatever value
of `common.InstanceTag`, a Vultr instance whose only tag is the ownership tag
followed by `-old` has no tag equal to the ownership tag, and
`Vultr.ListServer` lists it all the same, because `strings.Contains` matches a
tag that merely contains the ownership tag. -/
theorem Vultr_ListServer_lists_untagged (InstanceTag : String) :
    ¬ VInstance.owned InstanceTag
        ⟨"i-1", "web", "ewr", "203.0.113.7", [InstanceTag ++ "-old"], "active"⟩ ∧
    Vultr.ListServer InstanceTag
        (.ok [⟨"i-1", "web", "ewr", "203.0.113.7", [InstanceTag ++ "-old"], "active"⟩])
      = (some [vultrResult
          ⟨"i-1", "web", "ewr", "203.0.113.7", [InstanceTag ++ "-old"], "active"⟩], none) := by
  constructor
  · simp only [VInstance.owned, List.mem_singleton]
    exact fun h => append_ne_self InstanceTag "-old" (by decide) h.symm
  · rw [Vultr_ListServer_ok]
    simp [stringsContains_append]

/-- Claim C10, at the input where the code departs from it: for whatever value
of `common.InstanceTag`, a Vultr instance that carries the ownership tag and a
second tag containing it is listed twice by `Vultr.ListServer`, because the
loop over the tags appends once per matching tag and has no `break`. -/
theorem Vultr_ListServer_lists_twice (InstanceTag : String) :
    VInstance.owned InstanceTag
        ⟨"i-1", "mc1", "ewr", "203.0.113.7", [InstanceTag, InstanceTag ++ "-java"], "active"⟩ ∧
    Vultr.ListServer InstanceTag
        (.ok [⟨"i-1", "mc1", "ewr", "203.0.113.7", [InstanceTag, InstanceTag ++ "-java"],
               "active"⟩])
      = (some [vultrResult
            ⟨"i-1", "mc1", "ewr", "203.0.113.7", [InstanceTag, InstanceTag ++ "-java"],
             "active"⟩,
          vultrResult
            ⟨"i-1", "mc1", "ewr", "203.0.113.7", [InstanceTag, InstanceTag ++ "-java"],
             "active"⟩], none) := by
  constructor
  · simp [VInstance.owned]
  · rw [Vultr_ListServer_ok]
    simp [stringsContains_append, stringsContains_self, List.replicate_succ]

/-! ## Call logs: lemmas -/

theorem Aborts_of_noErr {ε : Type} (err : ε → Option Error) (out : Outcome (Option Error))
    (l : List ε) (h : ∀ ev ∈ l, err ev = none) : Aborts err out l := by
  induction l with
  | nil => trivial
  | cons a l ih =>
    have ha := h a (List.mem_cons_self _ _)
    simp only [Aborts, ha]
    exact ih (fun ev hev => h ev (List.mem_cons_of_mem _ hev))

theorem Aborts_append {ε : Type} (err : ε → Option Error) (out : Outcome (Option Error))
    (l r : List ε) (h : ∀ ev ∈ l, err ev = none) (hr : Aborts err out r) :
    Aborts err out (l ++ r) := by
  induction l with
  | nil => simpa using hr
  | cons a l ih =>
    have ha := h a (List.mem_cons_self _ _)
    simp only [List.cons_append, Aborts, ha]
    exact ih (fun ev hev => h ev (List.mem_cons_of_mem _ hev))

theorem Aborts_split {ε : Type} (err : ε → Option Error) (out : Outcome (Option Error))
    (l : List ε) (h : Aborts err out l) (pre : List ε) (ev : ε) (post : List ε) (e : Error)
    (hl : l = pre ++ ev :: post) (hev : err ev = some e) :
    post = [] ∧ out = .returned (some e) := by
  induction pre generalizing l with
  | nil =>
    subst hl
    simpa only [List.nil_append, Aborts, hev] using h
  | cons a pre ih =>
    subst hl
    simp only [List.cons_append, Aborts] at h
    cases ha : err a with
    | none =>
      rw [ha] at h
      exact ih _ h rfl
    | some e0 =>
      rw [ha] at h
      exact absurd h.1 (by simp)

theorem Hetzner_detachPoll_log (env : HEnv) (id : Int) (fuel n : Nat) :
    (∀ e, (Hetzner.detachPoll env id fuel n).2 = .failed e →
        Aborts HEvent.err (.returned (some e)) (Hetzner.detachPoll env id fuel n).1) ∧
    ((∀ e, (Hetzner.detachPoll env id fuel n).2 ≠ .failed e) →
        ∀ ev ∈ (Hetzner.detachPoll env id fuel n).1, ev.err = none) := by
  induction fuel generalizing n with
  | zero => simp [Hetzner.detachPoll]
  | succ fuel ih =>
    unfold Hetzner.detachPoll
    cases hr : env.actionGetByID n id with
    | error err => simp [Aborts, HEvent.err, Resp.err]
    | ok a =>
      cases a with
      | none => simp [HEvent.err, Resp.err]
      | some action =>
        by_cases hs : action.Status = "success"
        · simp [hs, HEvent.err, Resp.err]
        · simp only [hs, if_false, Aborts, HEvent.err, Resp.err, List.mem_cons, forall_eq_or_imp,
            true_and]
          exact ih (n + 1)

/-! ## The paths through `Hetzner.DeleteServer` -/

theorem Hetzner_deleteInstance_nil_server (env : HEnv) (args : ServerArgs)
    (pre : List HEvent) :
    Hetzner.deleteInstance env args pre none = (pre, .panicked) := by
  simp [Hetzner.deleteInstance]

theorem Hetzner_deleteInstance_delete_error (env : HEnv) (args : ServerArgs) (pre : List HEvent)
    (server : HServer) (err : Error) (h1 : env.serverDelete server = some err) :
    Hetzner.deleteInstance env args pre (some server)
      = (pre ++ [.serverDelete server (some err)], .returned (some err)) := by
  simp [Hetzner.deleteInstance, h1]

theorem Hetzner_deleteInstance_keyGet_error (env : HEnv) (args : ServerArgs) (pre : List HEvent)
    (server : HServer) (err : Error) (h1 : env.serverDelete server = none)
    (h2 : env.sshKeyGet (args.name ++ "-ssh") = .error err) :
    Hetzner.deleteInstance env args pre (some server)
      = (pre ++ [.serverDelete server none, .sshKeyGet (args.name ++ "-ssh") (.error err)],
         .returned (some err)) := by
  simp [Hetzner.deleteInstance, h1, h2]

theorem Hetzner_deleteInstance_nil_key (env : HEnv) (args : ServerArgs) (pre : List HEvent)
    (server : HServer) (h1 : env.serverDelete server = none)
    (h2 : env.sshKeyGet (args.name ++ "-ssh") = .ok none) :
    Hetzner.deleteInstance env args pre (some server)
      = (pre ++ [.serverDelete server none, .sshKeyGet (args.name ++ "-ssh") (.ok none)],
         .panicked) := by
  simp [Hetzner.deleteInstance, h1, h2]

theorem Hetzner_deleteInstance_keyDelete (env : HEnv) (args : ServerArgs) (pre : List HEvent)
    (server : HServer) (key : HSSHKey) (h1 : env.serverDelete server = none)
    (h2 : env.sshKeyGet (args.name ++ "-ssh") = .ok (some key)) :
    Hetzner.deleteInstance env args pre (some server)
      = (pre ++ [.serverDelete server none, .sshKeyGet (args.name ++ "-ssh") (.ok (some key)),
                 .sshKeyDelete key (env.sshKeyDelete key)],
         .returned (env.sshKeyDelete key)) := by
  cases h3 : env.sshKeyDelete key <;> simp [Hetzner.deleteInstance, h1, h2, h3]

theorem Hetzner_DeleteServer_lookup_error (env : HEnv) (id : String) (args : ServerArgs)
    (fuel : Nat) (err : Error) (h1 : env.serverGetByID 0 (env.atoi id) = .error err) :
    Hetzner.DeleteServer env id args fuel
      = ([.serverGetByID (env.atoi id) (.error err)], .returned (some err)) := by
  simp [Hetzner.DeleteServer, h1]

theorem Hetzner_DeleteServer_volumeGet_error (env : HEnv) (id : String) (args : ServerArgs)
    (fuel : Nat) (server : Option HServer) (err : Error)
    (h1 : env.serverGetByID 0 (env.atoi id) = .ok server)
    (h2 : env.volumeGet (args.name ++ "-vol") = .error err) :
    Hetzner.DeleteServer env id args fuel
      = ([.serverGetByID (env.atoi id) (.ok server),
          .volumeGet (args.name ++ "-vol") (.error err)], .returned (some err)) := by
  simp [Hetzner.DeleteServer, h1, h2]

theorem Hetzner_DeleteServer_no_volume (env : HEnv) (id : String) (args : ServerArgs)
    (fuel : Nat) (server : Option HServer)
    (h1 : env.serverGetByID 0 (env.atoi id) = .ok server)
    (h2 : env.volumeGet (args.name ++ "-vol") = .ok none) :
    Hetzner.DeleteServer env id args fuel
      = Hetzner.deleteInstance env args
          [.serverGetByID (env.atoi id) (.ok server),
           .volumeGet (args.name ++ "-vol") (.ok none)] server := by
  simp [Hetzner.DeleteServer, h1, h2]

theorem Hetzner_DeleteServer_detach_error (env : HEnv) (id : String) (args : ServerArgs)
    (fuel : Nat) (server : Option HServer) (volume : HVolume) (err : Error)
    (h1 : env.serverGetByID 0 (env.atoi id) = .ok server)
    (h2 : env.volumeGet (args.name ++ "-vol") = .ok (some volume))
    (h3 : env.volumeDetach volume = .error err) :
    Hetzner.DeleteServer env id args fuel
      = ([.serverGetByID (env.atoi id) (.ok server),
          .volumeGet (args.name ++ "-vol") (.ok (some volume)),
          .volumeDetach volume (.error err)], .returned (some err)) := by
  simp [Hetzner.DeleteServer, h1, h2, h3]

theorem Hetzner_DeleteServer_detached (env : HEnv) (id : String) (args : ServerArgs)
    (fuel : Nat) (server : Option HServer) (volume : HVolume) (res : HAction)
    (h1 : env.serverGetByID 0 (env.atoi id) = .ok server)
    (h2 : env.volumeGet (args.name ++ "-vol") = .ok (some volume))
    (h3 : env.volumeDetach volume = .ok res) :
    Hetzner.DeleteServer env id args fuel
      = match (Hetzner.detachPoll env res.ID fuel 0).2 with
        | .failed err =>
          ([.serverGetByID (env.atoi id) (.ok server),
            .volumeGet (args.name ++ "-vol") (.ok (some volume)),
            .volumeDetach volume (.ok res)] ++ (Hetzner.detachPoll env res.ID fuel 0).1,
           .returned (some err))
        | .panicked =>
          ([.serverGetByID (env.atoi id) (.ok server),
            .volumeGet (args.name ++ "-vol") (.ok (some volume)),
            .volumeDetach volume (.ok res)] ++ (Hetzner.detachPoll env res.ID fuel 0).1,
           .panicked)
        | .running =>
          ([.serverGetByID (env.atoi id) (.ok server),
            .volumeGet (args.name ++ "-vol") (.ok (some volume)),
            .volumeDetach volume (.ok res)] ++ (Hetzner.detachPoll env res.ID fuel 0).1,
           .running)
        | .done _ =>
          match env.volumeDelete volume with
          | some err =>
            ([.serverGetByID (env.atoi id) (.ok server),
              .volumeGet (args.name ++ "-vol") (.ok (some volume)),
              .volumeDetach volume (.ok res)] ++ (Hetzner.detachPoll env res.ID fuel 0).1
              ++ [.volumeDelete volume (some err)], .returned (some err))
          | none =>
            Hetzner.deleteInstance env args
              ([.serverGetByID (env.atoi id) (.ok server),
                .volumeGet (args.name ++ "-vol") (.ok (some volume)),
                .volumeDetach volume (.ok res)] ++ (Hetzner.detachPoll env res.ID fuel 0).1
                ++ [.volumeDelete volume none]) server := by
  simp only [Hetzner.DeleteServer, h1, h2, h3]
  cases (Hetzner.detachPoll env res.ID fuel 0).2 with
  | done u => cases h4 : env.volumeDelete volume <;> simp
  | _ => simp

theorem noErr_append {ε : Type} (err : ε → Option Error) (l r : List ε)
    (hl : ∀ ev ∈ l, err ev = none) (hr : ∀ ev ∈ r, err ev = none) :
    ∀ ev ∈ l ++ r, err ev = none := by
  intro ev hev
  rcases List.mem_append.mp hev with h | h
  · exact hl ev h
  · exact hr ev h

theorem Hetzner_deleteInstance_aborts (env : HEnv) (args : ServerArgs) (pre : List HEvent)
    (server : Option HServer) (hpre : ∀ ev ∈ pre, ev.err = none) :
    Aborts HEvent.err (Hetzner.deleteInstance env args pre server).2
      (Hetzner.deleteInstance env args pre server).1 := by
  cases server with
  | none =>
    rw [Hetzner_deleteInstance_nil_server]
    exact Aborts_of_noErr _ _ _ hpre
  | some server =>
    cases h1 : env.serverDelete server with
    | some err =>
      rw [Hetzner_deleteInstance_delete_error env args pre server err h1]
      exact Aborts_append _ _ _ _ hpre (by simp [Aborts, HEvent.err])
    | none =>
      cases h2 : env.sshKeyGet (args.name ++ "-ssh") with
      | error err =>
        rw [Hetzner_deleteInstance_keyGet_error env args pre server err h1 h2]
        exact Aborts_append _ _ _ _ hpre (by simp [Aborts, HEvent.err, Resp.err])
      | ok k =>
        cases k with
        | none =>
          rw [Hetzner_deleteInstance_nil_key env args pre server h1 h2]
          exact Aborts_append _ _ _ _ hpre (by simp [Aborts, HEvent.err, Resp.err])
        | some key =>
          rw [Hetzner_deleteInstance_keyDelete env args pre server key h1 h2]
          refine Aborts_append _ _ _ _ hpre ?_
          cases h3 : env.sshKeyDelete key <;> simp [Aborts, HEvent.err, Resp.err]

theorem Hetzner_DeleteServer_aborts (env : HEnv) (id : String) (args : ServerArgs) (fuel : Nat) :
    Aborts HEvent.err (Hetzner.DeleteServer env id args fuel).2
      (Hetzner.DeleteServer env id args fuel).1 := by
  cases h1 : env.serverGetByID 0 (env.atoi id) with
  | error err =>
    rw [Hetzner_DeleteServer_lookup_error env id args fuel err h1]
    simp [Aborts, HEvent.err, Resp.err]
  | ok server =>
    cases h2 : env.volumeGet (args.name ++ "-vol") with
    | error err =>
      rw [Hetzner_DeleteServer_volumeGet_error env id args fuel server err h1 h2]
      simp [Aborts, HEvent.err, Resp.err]
    | ok v =>
      cases v with
      | none =>
        rw [Hetzner_DeleteServer_no_volume env id args fuel server h1 h2]
        apply Hetzner_deleteInstance_aborts
        simp [HEvent.err, Resp.err]
      | some volume =>
        cases h3 : env.volumeDetach volume with
        | error err =>
          rw [Hetzner_DeleteServer_detach_error env id args fuel server volume err h1 h2 h3]
          simp [Aborts, HEvent.err, Resp.err]
        | ok res =>
          rw [Hetzner_DeleteServer_detached env id args fuel server volume res h1 h2 h3]
          have hlog := Hetzner_detachPoll_log env res.ID fuel 0
          have hpre : ∀ ev ∈ [HEvent.serverGetByID (env.atoi id) (.ok server),
              HEvent.volumeGet (args.name ++ "-vol") (.ok (some volume)),
              HEvent.volumeDetach volume (.ok res)], ev.err = none := by
            simp [HEvent.err, Resp.err]
          cases hp : (Hetzner.detachPoll env res.ID fuel 0).2 with
          | failed err => exact Aborts_append _ _ _ _ hpre (hlog.1 err hp)
          | panicked =>
            exact Aborts_of_noErr _ _ _ (noErr_append _ _ _ hpre (hlog.2 (by simp [hp])))
          | running =>
            exact Aborts_of_noErr _ _ _ (noErr_append _ _ _ hpre (hlog.2 (by simp [hp])))
          | done u =>
            have hpre2 := noErr_append _ _ _ hpre (hlog.2 (by simp [hp]))
            cases h4 : env.volumeDelete volume with
            | some err =>
              exact Aborts_append _ _ _ _ hpre2 (by simp [Aborts, HEvent.err])
            | none =>
              apply Hetzner_deleteInstance_aborts
              exact noErr_append _ _ _ hpre2 (by simp [HEvent.err])

/-! ## The paths through `Vultr.DeleteServer` -/

theorem Vultr_deleteKey_log (env : VEnv) (args : ServerArgs) (sshKeys : List VSSHKey) :
    (Vultr.deleteKey env args sshKeys = ([], none)) ∨
    (∃ sshKey ∈ sshKeys, sshKey.Name = args.name ++ "-ssh" ∧
      Vultr.deleteKey env args sshKeys
        = ([.sshKeyDelete sshKey.ID (env.sshKeyDelete sshKey.ID)],
           env.sshKeyDelete sshKey.ID)) := by
  induction sshKeys with
  | nil => exact Or.inl rfl
  | cons k rest ih =>
    by_cases hk : k.Name = args.name ++ "-ssh"
    · exact Or.inr ⟨k, List.mem_cons_self _ _, hk, by simp [Vultr.deleteKey, hk]⟩
    · rcases ih with h | ⟨k2, hmem, hname, h⟩
      · exact Or.inl (by simp [Vultr.deleteKey, hk, h])
      · exact Or.inr ⟨k2, List.mem_cons_of_mem _ hmem, hname, by simp [Vultr.deleteKey, hk, h]⟩

theorem Vultr_DeleteServer_list_error (env : VEnv) (id : String) (args : ServerArgs)
    (err : Error) (h1 : env.sshKeyList = .error err) :
    Vultr.DeleteServer env id args = ([.sshKeyList (.error err)], .returned (some err)) := by
  simp [Vultr.DeleteServer, h1]

theorem Vultr_DeleteServer_keyDelete_error (env : VEnv) (id : String) (args : ServerArgs)
    (sshKeys : List VSSHKey) (err : Error) (h1 : env.sshKeyList = .ok sshKeys)
    (h2 : (Vultr.deleteKey env args sshKeys).2 = some err) :
    Vultr.DeleteServer env id args
      = ([.sshKeyList (.ok sshKeys)] ++ (Vultr.deleteKey env args sshKeys).1,
         .returned (some err)) := by
  simp [Vultr.DeleteServer, h1, h2]

theorem Vultr_DeleteServer_instanceDelete (env : VEnv) (id : String) (args : ServerArgs)
    (sshKeys : List VSSHKey) (h1 : env.sshKeyList = .ok sshKeys)
    (h2 : (Vultr.deleteKey env args sshKeys).2 = none) :
    Vultr.DeleteServer env id args
      = ([.sshKeyList (.ok sshKeys)] ++ (Vultr.deleteKey env args sshKeys).1
          ++ [.instanceDelete id (env.instanceDelete id)],
         .returned (env.instanceDelete id)) := by
  cases h3 : env.instanceDelete id <;> simp [Vultr.DeleteServer, h1, h2, h3]

theorem Vultr_DeleteServer_aborts (env : VEnv) (id : String) (args : ServerArgs) :
    Aborts VEvent.err (Vultr.DeleteServer env id args).2 (Vultr.DeleteServer env id args).1 := by
  cases h1 : env.sshKeyList with
  | error err =>
    rw [Vultr_DeleteServer_list_error env id args err h1]
    simp [Aborts, VEvent.err, Resp.err]
  | ok sshKeys =>
    cases h2 : (Vultr.deleteKey env args sshKeys).2 with
    | some err =>
      rw [Vultr_DeleteServer_keyDelete_error env id args sshKeys err h1 h2]
      rcases Vultr_deleteKey_log env args sshKeys with h | ⟨k, _, _, h⟩
      · rw [h] at h2
        exact absurd h2 (by simp)
      · rw [h] at h2 ⊢
        simp only at h2
        simp [Aborts, VEvent.err, Resp.err, h2]
    | none =>
      rw [Vultr_DeleteServer_instanceDelete env id args sshKeys h1 h2]
      rcases Vultr_deleteKey_log env args sshKeys with h | ⟨k, _, _, h⟩
      · rw [h]
        cases h3 : env.instanceDelete id <;> simp [Aborts, VEvent.err, Resp.err, h3]
      · rw [h] at h2 ⊢
        simp only at h2
        cases h3 : env.instanceDelete id <;> simp [Aborts, VEvent.err, Resp.err, h2, h3]

/-! ## DeleteServer -/

/-- Claim C7: in `DeleteServer` of either adapter, a provider call that returns
an error is the last call of the run, and the run returns exactly that error
(so never nil after a failed call). -/
theorem DeleteServer_aborts_at_failed_call (henv : HEnv) (venv : VEnv) (id : String)
    (args : ServerArgs) (fuel : Nat) :
    (∀ pre ev post e, (Hetzner.DeleteServer henv id args fuel).1 = pre ++ ev :: post →
        ev.err = some e →
        post = [] ∧ (Hetzner.DeleteServer henv id args fuel).2 = .returned (some e)) ∧
    (∀ pre ev post e, (Vultr.DeleteServer venv id args).1 = pre ++ ev :: post →
        ev.err = some e →
        post = [] ∧ (Vultr.DeleteServer venv id args).2 = .returned (some e)) :=
  ⟨fun pre ev post e h he =>
      Aborts_split _ _ _ (Hetzner_DeleteServer_aborts henv id args fuel) pre ev post e h he,
   fun pre ev post e h he =>
      Aborts_split _ _ _ (Vultr_DeleteServer_aborts venv id args) pre ev post e h he⟩

theorem DeleteServer_aborts_at_failed_call_witness :
    (Hetzner.DeleteServer hetznerServerLocked "7" mc1 5).2
        = .returned (some "server is locked") ∧
    (Vultr.DeleteServer vultrNoInstance "i-1" mc1).2
        = .returned (some "instance not found") :=
  ⟨((DeleteServer_aborts_at_failed_call hetznerServerLocked vultrNoInstance "7" mc1 5).1
      [.serverGetByID 7 (.ok (some hServerCreated)),
       .volumeGet "mc1-vol" (.ok (some ⟨5, "mc1-vol"⟩)),
       .volumeDetach ⟨5, "mc1-vol"⟩ (.ok ⟨31, "running"⟩),
       .actionGetByID 31 (.ok (some ⟨31, "running"⟩)),
       .actionGetByID 31 (.ok (some ⟨31, "success"⟩)),
       .volumeDelete ⟨5, "mc1-vol"⟩ none]
      (.serverDelete hServerCreated (some "server is locked")) [] "server is locked"
      (by decide) rfl).2,
   ((DeleteServer_aborts_at_failed_call hetznerServerLocked vultrNoInstance "i-1" mc1 5).2
      [.sshKeyList (.ok [⟨"k0", "other-ssh"⟩, ⟨"k1", "mc1-ssh"⟩]), .sshKeyDelete "k1" none]
      (.instanceDelete "i-1" (some "instance not found")) [] "instance not found"
      (by decide) rfl).2⟩

theorem split_unique {ε : Type} (q : ε → Bool) (p1 s1 p2 s2 : List ε) (x y : ε)
    (h : p1 ++ x :: s1 = p2 ++ y :: s2) (hp : ∀ z ∈ p1, q z = false)
    (hs : ∀ z ∈ s1, q z = false) (hy : q y = true) : p2 = p1 ∧ y = x ∧ s2 = s1 := by
  induction p1 generalizing p2 with
  | nil =>
    cases p2 with
    | nil =>
      simp only [List.nil_append, List.cons.injEq] at h
      exact ⟨rfl, h.1.symm, h.2.symm⟩
    | cons b p2 =>
      simp only [List.nil_append, List.cons_append, List.cons.injEq] at h
      have hmem : y ∈ s1 := by rw [h.2]; simp
      rw [hs y hmem] at hy
      exact absurd hy (by simp)
  | cons a p1 ih =>
    cases p2 with
    | nil =>
      simp only [List.nil_append, List.cons_append, List.cons.injEq] at h
      have ha := hp a (List.mem_cons_self _ _)
      rw [h.1, hy] at ha
      exact absurd ha (by simp)
    | cons b p2 =>
      simp only [List.cons_append, List.cons.injEq] at h
      obtain ⟨h1, h2, h3⟩ := ih p2 h.2 (fun z hz => hp z (List.mem_cons_of_mem _ hz))
      exact ⟨by rw [h.1, h1], h2, h3⟩

theorem Hetzner_detachPoll_calls (env : HEnv) (id : Int) (fuel n : Nat) :
    ∀ ev ∈ (Hetzner.detachPoll env id fuel n).1, ∃ r, ev = .actionGetByID id r := by
  induction fuel generalizing n with
  | zero => simp [Hetzner.detachPoll]
  | succ fuel ih =>
    unfold Hetzner.detachPoll
    cases hr : env.actionGetByID n id with
    | error err => simp
    | ok a =>
      cases a with
      | none => simp
      | some action =>
        by_cases hs : action.Status = "success"
        · simp [hs]
        · simp only [hs, if_false, List.mem_cons, forall_eq_or_imp]
          exact ⟨⟨_, rfl⟩, ih (n + 1)⟩

theorem Hetzner_detachPoll_done (env : HEnv) (id : Int) (fuel n : Nat) (u : Unit)
    (h : (Hetzner.detachPoll env id fuel n).2 = .done u) :
    ∃ polls action, (Hetzner.detachPoll env id fuel n).1
        = polls ++ [.actionGetByID id (.ok (some action))] ∧ action.Status = "success" := by
  induction fuel generalizing n with
  | zero => simp [Hetzner.detachPoll] at h
  | succ fuel ih =>
    unfold Hetzner.detachPoll at h ⊢
    cases hr : env.actionGetByID n id with
    | error err => simp [hr] at h
    | ok a =>
      cases a with
      | none => simp [hr] at h
      | some action =>
        by_cases hs : action.Status = "success"
        · exact ⟨[], action, by simp [hs], hs⟩
        · simp only [hr, hs, if_false] at h
          obtain ⟨polls, act, hp, hst⟩ := ih (n + 1) h
          exact ⟨HEvent.actionGetByID id (.ok (some action)) :: polls, act, by simp [hs, hp], hst⟩

theorem Hetzner_deleteInstance_success (env : HEnv) (args : ServerArgs) (pre : List HEvent)
    (server : Option HServer) (h : (Hetzner.deleteInstance env args pre server).2 = .returned none) :
    ∃ found key, server = some found ∧ (Hetzner.deleteInstance env args pre server).1
      = pre ++ [.serverDelete found none, .sshKeyGet (args.name ++ "-ssh") (.ok (some key)),
                .sshKeyDelete key none] := by
  cases server with
  | none =>
    rw [Hetzner_deleteInstance_nil_server] at h
    simp at h
  | some server =>
    cases h1 : env.serverDelete server with
    | some err =>
      rw [Hetzner_deleteInstance_delete_error env args pre server err h1] at h
      simp at h
    | none =>
      cases h2 : env.sshKeyGet (args.name ++ "-ssh") with
      | error err =>
        rw [Hetzner_deleteInstance_keyGet_error env args pre server err h1 h2] at h
        simp at h
      | ok k =>
        cases k with
        | none =>
          rw [Hetzner_deleteInstance_nil_key env args pre server h1 h2] at h
          simp at h
        | some key =>
          rw [Hetzner_deleteInstance_keyDelete env args pre server key h1 h2] at h ⊢
          simp only [Outcome.returned.injEq] at h
          exact ⟨server, key, rfl, by rw [h]⟩

/-- The two shapes of the call log of a `Hetzner.DeleteServer` that returns nil. -/
theorem Hetzner_DeleteServer_success (env : HEnv) (id : String) (args : ServerArgs) (fuel : Nat)
    (h : (Hetzner.DeleteServer env id args fuel).2 = .returned none) :
    (∃ server key, (Hetzner.DeleteServer env id args fuel).1
        = [.serverGetByID (env.atoi id) (.ok (some server)),
           .volumeGet (args.name ++ "-vol") (.ok none),
           .serverDelete server none, .sshKeyGet (args.name ++ "-ssh") (.ok (some key)),
           .sshKeyDelete key none]) ∨
    (∃ server volume res polls action key, (Hetzner.DeleteServer env id args fuel).1
        = ([.serverGetByID (env.atoi id) (.ok (some server)),
            .volumeGet (args.name ++ "-vol") (.ok (some volume)),
            .volumeDetach volume (.ok res)] ++ polls
            ++ [.actionGetByID res.ID (.ok (some action))])
          ++ .volumeDelete volume none ::
            [.serverDelete server none, .sshKeyGet (args.name ++ "-ssh") (.ok (some key)),
             .sshKeyDelete key none]
        ∧ action.Status = "success" ∧ ∀ ev ∈ polls, ∃ r, ev = .actionGetByID res.ID r) := by
  cases h1 : env.serverGetByID 0 (env.atoi id) with
  | error err =>
    rw [Hetzner_DeleteServer_lookup_error env id args fuel err h1] at h
    simp at h
  | ok server =>
    cases h2 : env.volumeGet (args.name ++ "-vol") with
    | error err =>
      rw [Hetzner_DeleteServer_volumeGet_error env id args fuel server err h1 h2] at h
      simp at h
    | ok v =>
      cases v with
      | none =>
        rw [Hetzner_DeleteServer_no_volume env id args fuel server h1 h2] at h ⊢
        obtain ⟨found, key, hfound, hk⟩ := Hetzner_deleteInstance_success env args _ server h
        subst hfound
        exact Or.inl ⟨found, key, by rw [hk]; rfl⟩
      | some volume =>
        cases h3 : env.volumeDetach volume with
        | error err =>
          rw [Hetzner_DeleteServer_detach_error env id args fuel server volume err h1 h2 h3] at h
          simp at h
        | ok res =>
          rw [Hetzner_DeleteServer_detached env id args fuel server volume res h1 h2 h3] at h ⊢
          have hcalls := Hetzner_detachPoll_calls env res.ID fuel 0
          cases hp : (Hetzner.detachPoll env res.ID fuel 0).2 with
          | failed err => simp [hp] at h
          | panicked => simp [hp] at h
          | running => simp [hp] at h
          | done u =>
            obtain ⟨polls, action, hpolls, hst⟩ := Hetzner_detachPoll_done env res.ID fuel 0 u hp
            simp only [hp] at h ⊢
            cases h4 : env.volumeDelete volume with
            | some err => simp [h4] at h
            | none =>
              simp only [h4] at h ⊢
              obtain ⟨found, key, hfound, hk⟩ := Hetzner_deleteInstance_success env args _ server h
              subst hfound
              refine Or.inr ⟨found, volume, res, polls, action, key, ?_, hst, ?_⟩
              · rw [hk, hpolls]
                simp
              · intro ev hev
                exact hcalls ev (by rw [hpolls]; simp [hev])

theorem Vultr_DeleteServer_success (env : VEnv) (id : String) (args : ServerArgs)
    (h : (Vultr.DeleteServer env id args).2 = .returned none) :
    ∃ sshKeys, ((Vultr.DeleteServer env id args).1
        = [.sshKeyList (.ok sshKeys), .instanceDelete id none]) ∨
      (∃ sshKey ∈ sshKeys, sshKey.Name = args.name ++ "-ssh" ∧
        (Vultr.DeleteServer env id args).1
          = [.sshKeyList (.ok sshKeys)] ++ .sshKeyDelete sshKey.ID none ::
              [.instanceDelete id none]) := by
  cases h1 : env.sshKeyList with
  | error err =>
    rw [Vultr_DeleteServer_list_error env id args err h1] at h
    simp at h
  | ok sshKeys =>
    refine ⟨sshKeys, ?_⟩
    cases h2 : (Vultr.deleteKey env args sshKeys).2 with
    | some err =>
      rw [Vultr_DeleteServer_keyDelete_error env id args sshKeys err h1 h2] at h
      simp at h
    | none =>
      rw [Vultr_DeleteServer_instanceDelete env id args sshKeys h1 h2] at h ⊢
      simp only [Outcome.returned.injEq] at h
      rcases Vultr_deleteKey_log env args sshKeys with hk | ⟨k, hmem, hname, hk⟩
      · left
        rw [hk, h]
        rfl
      · right
        rw [hk] at h2
        simp only at h2
        refine ⟨k, hmem, hname, ?_⟩
        rw [hk, h, h2]
        rfl

/-- Claim C2, as amended: in a run of `Hetzner.DeleteServer` that returns nil,
every volume-delete call comes after the detach call for that volume and
after a poll that saw the detach action in status `success`, in this order,
and the SSH-key-delete call comes after the server-delete call; in a run of
`Vultr.DeleteServer` that returns nil, an SSH-key-delete call is followed by
the instance-delete call, which is the last call. -/
theorem DeleteServer_teardown_order (henv : HEnv) (venv : VEnv) (id : String)
    (args : ServerArgs) (fuel : Nat) :
    ((Hetzner.DeleteServer henv id args fuel).2 = .returned none →
      (∀ pre volume r post,
        (Hetzner.DeleteServer henv id args fuel).1 = pre ++ .volumeDelete volume r :: post →
        ∃ res action,
          List.Sublist
            [HEvent.volumeDetach volume (.ok res), .actionGetByID res.ID (.ok (some action))] pre
          ∧ action.Status = "success") ∧
      (∀ pre key r post,
        (Hetzner.DeleteServer henv id args fuel).1 = pre ++ .sshKeyDelete key r :: post →
        ∃ server, HEvent.serverDelete server none ∈ pre)) ∧
    ((Vultr.DeleteServer venv id args).2 = .returned none →
      ∀ pre keyID r post,
        (Vultr.DeleteServer venv id args).1 = pre ++ .sshKeyDelete keyID r :: post →
        post = [.instanceDelete id none]) := by
  refine ⟨fun h => ⟨?_, ?_⟩, fun h => ?_⟩
  · intro pre volume r post htr
    rcases Hetzner_DeleteServer_success henv id args fuel h with
      ⟨server, key, hs⟩ | ⟨server, vol, res, polls, action, key, hs, hst, hpolls⟩
    · rw [hs] at htr
      have hmem : HEvent.volumeDelete volume r ∈ pre ++ .volumeDelete volume r :: post := by simp
      rw [← htr] at hmem
      simp at hmem
    · rw [hs] at htr
      obtain ⟨hpre, hev, _⟩ := split_unique HEvent.isVolumeDelete _ _ _ _ _ _ htr
        (by
          intro z hz
          simp only [List.mem_append, List.mem_cons, List.mem_singleton, List.not_mem_nil,
            or_false] at hz
          rcases hz with ((rfl | rfl | rfl) | hz) | rfl
          · rfl
          · rfl
          · rfl
          · obtain ⟨r0, rfl⟩ := hpolls z hz
            rfl
          · rfl)
        (by
          intro z hz
          simp only [List.mem_cons, List.mem_singleton, List.not_mem_nil, or_false] at hz
          rcases hz with rfl | rfl | rfl <;> rfl)
        rfl
      simp only [HEvent.volumeDelete.injEq] at hev
      obtain ⟨rfl, _⟩ := hev
      refine ⟨res, action, ?_, hst⟩
      rw [hpre]
      exact List.Sublist.append
        (List.singleton_sublist.mpr (by simp)) (List.Sublist.refl _)
  · intro pre key0 r post htr
    rcases Hetzner_DeleteServer_success henv id args fuel h with
      ⟨server, key, hs⟩ | ⟨server, vol, res, polls, action, key, hs, hst, hpolls⟩
    · rw [hs] at htr
      obtain ⟨hpre, _, _⟩ := split_unique HEvent.isSSHKeyDelete
        [.serverGetByID (henv.atoi id) (.ok (some server)),
         .volumeGet (args.name ++ "-vol") (.ok none),
         .serverDelete server none, .sshKeyGet (args.name ++ "-ssh") (.ok (some key))] []
        pre post (.sshKeyDelete key none) (.sshKeyDelete key0 r) htr
        (by
          intro z hz
          simp only [List.mem_cons, List.mem_singleton, List.not_mem_nil, or_false] at hz
          rcases hz with rfl | rfl | rfl | rfl <;> rfl)
        (by simp) rfl
      exact ⟨server, by rw [hpre]; simp⟩
    · rw [hs] at htr
      obtain ⟨hpre, _, _⟩ := split_unique HEvent.isSSHKeyDelete
        ([.serverGetByID (henv.atoi id) (.ok (some server)),
          .volumeGet (args.name ++ "-vol") (.ok (some vol)),
          .volumeDetach vol (.ok res)] ++ polls
          ++ [.actionGetByID res.ID (.ok (some action))]
          ++ [.volumeDelete vol none, .serverDelete server none,
              .sshKeyGet (args.name ++ "-ssh") (.ok (some key))]) []
        pre post (.sshKeyDelete key none) (.sshKeyDelete key0 r) (by simpa using htr)
        (by
          intro z hz
          simp only [List.mem_append, List.mem_cons, List.mem_singleton, List.not_mem_nil,
            or_false] at hz
          rcases hz with (((rfl | rfl | rfl) | hz) | rfl) | (rfl | rfl | rfl)
          · rfl
          · rfl
          · rfl
          · obtain ⟨r0, rfl⟩ := hpolls z hz
            rfl
          · rfl
          · rfl
          · rfl
          · rfl)
        (by simp) rfl
      exact ⟨server, by rw [hpre]; simp⟩
  · intro pre keyID r post htr
    obtain ⟨sshKeys, hs | ⟨k, _, _, hs⟩⟩ := Vultr_DeleteServer_success venv id args h
    · rw [hs] at htr
      have hmem : VEvent.sshKeyDelete keyID r ∈ pre ++ .sshKeyDelete keyID r :: post := by simp
      rw [← htr] at hmem
      simp at hmem
    · rw [hs] at htr
      obtain ⟨_, _, hpost⟩ := split_unique VEvent.isSSHKeyDelete _ _ _ _ _ _ htr
        (by
          intro z hz
          simp only [List.mem_singleton] at hz
          subst hz
          rfl)
        (by
          intro z hz
          simp only [List.mem_singleton] at hz
          subst hz
          rfl)
        rfl
      exact hpost

theorem DeleteServer_teardown_order_witness :
    (∃ res action,
      List.Sublist
        [HEvent.volumeDetach ⟨5, "mc1-vol"⟩ (.ok res), .actionGetByID res.ID (.ok (some action))]
        [.serverGetByID 7 (.ok (some hServerCreated)),
         .volumeGet "mc1-vol" (.ok (some ⟨5, "mc1-vol"⟩)),
         .volumeDetach ⟨5, "mc1-vol"⟩ (.ok ⟨31, "running"⟩),
         .actionGetByID 31 (.ok (some ⟨31, "running"⟩)),
         .actionGetByID 31 (.ok (some ⟨31, "success"⟩))]
      ∧ action.Status = "success") ∧
    (∃ server, HEvent.serverDelete server none ∈
        [.serverGetByID 7 (.ok (some hServerCreated)),
         .volumeGet "mc1-vol" (.ok (some ⟨5, "mc1-vol"⟩)),
         .volumeDetach ⟨5, "mc1-vol"⟩ (.ok ⟨31, "running"⟩),
         .actionGetByID 31 (.ok (some ⟨31, "running"⟩)),
         .actionGetByID 31 (.ok (some ⟨31, "success"⟩)),
         .volumeDelete ⟨5, "mc1-vol"⟩ none,
         .serverDelete hServerCreated none,
         .sshKeyGet "mc1-ssh" (.ok (some ⟨3, "mc1-ssh"⟩))]) ∧
    [VEvent.instanceDelete "i-1" none] = [.instanceDelete "i-1" none] :=
  ⟨((DeleteServer_teardown_order hetznerOK vultrOK "7" mc1 5).1 (by decide)).1
      [.serverGetByID 7 (.ok (some hServerCreated)),
       .volumeGet "mc1-vol" (.ok (some ⟨5, "mc1-vol"⟩)),
       .volumeDetach ⟨5, "mc1-vol"⟩ (.ok ⟨31, "running"⟩),
       .actionGetByID 31 (.ok (some ⟨31, "running"⟩)),
       .actionGetByID 31 (.ok (some ⟨31, "success"⟩))]
      ⟨5, "mc1-vol"⟩ none
      [.serverDelete hServerCreated none,
       .sshKeyGet "mc1-ssh" (.ok (some ⟨3, "mc1-ssh"⟩)),
       .sshKeyDelete ⟨3, "mc1-ssh"⟩ none]
      (by decide),
   ((DeleteServer_teardown_order hetznerOK vultrOK "7" mc1 5).1 (by decide)).2
      [.serverGetByID 7 (.ok (some hServerCreated)),
       .volumeGet "mc1-vol" (.ok (some ⟨5, "mc1-vol"⟩)),
       .volumeDetach ⟨5, "mc1-vol"⟩ (.ok ⟨31, "running"⟩),
       .actionGetByID 31 (.ok (some ⟨31, "running"⟩)),
       .actionGetByID 31 (.ok (some ⟨31, "success"⟩)),
       .volumeDelete ⟨5, "mc1-vol"⟩ none,
       .serverDelete hServerCreated none,
       .sshKeyGet "mc1-ssh" (.ok (some ⟨3, "mc1-ssh"⟩))]
      ⟨3, "mc1-ssh"⟩ none [] (by decide),
   (DeleteServer_teardown_order hetznerOK vultrOK "i-1" mc1 5).2 (by decide)
      [.sshKeyList (.ok [⟨"k0", "other-ssh"⟩, ⟨"k1", "mc1-ssh"⟩])] "k1" none
      [.instanceDelete "i-1" none] (by decide)⟩

/-- Claim C2 as stated fails for Vultr: in this run of `Vultr.DeleteServer`,
which returns nil, the SSH-key-delete call is the second call and the
instance-delete call the third, so no instance-delete call comes before the
SSH-key-delete call. -/
theorem Vultr_DeleteServer_deletes_key_first :
    Vultr.DeleteServer vultrOK "i-1" mc1
      = ([.sshKeyList (.ok [⟨"k0", "other-ssh"⟩, ⟨"k1", "mc1-ssh"⟩]),
          .sshKeyDelete "k1" none, .instanceDelete "i-1" none], .returned none) ∧
    ¬ (∀ pre keyID r post,
        (Vultr.DeleteServer vultrOK "i-1" mc1).1 = pre ++ .sshKeyDelete keyID r :: post →
        ∃ r0, VEvent.instanceDelete "i-1" r0 ∈ pre) := by
  have hrun : Vultr.DeleteServer vultrOK "i-1" mc1
      = ([.sshKeyList (.ok [⟨"k0", "other-ssh"⟩, ⟨"k1", "mc1-ssh"⟩]),
          .sshKeyDelete "k1" none, .instanceDelete "i-1" none], .returned none) := by decide
  refine ⟨hrun, fun hall => ?_⟩
  obtain ⟨r0, hr0⟩ := hall [.sshKeyList (.ok [⟨"k0", "other-ssh"⟩, ⟨"k1", "mc1-ssh"⟩])]
    "k1" none [.instanceDelete "i-1" none] (by rw [hrun]; rfl)
  simp at hr0

/-- Claim C6 as stated fails: when the detach call reports the volume not
found, `Hetzner.DeleteServer` returns that error after the detach call and
issues neither the server-delete nor the SSH-key-delete call, although both
would succeed in this account. -/
theorem Hetzner_DeleteServer_detach_not_found :
    hetznerDetachNotFound.serverDelete hServerCreated = none ∧
    hetznerDetachNotFound.sshKeyDelete ⟨3, "mc1-ssh"⟩ = none ∧
    Hetzner.DeleteServer hetznerDetachNotFound "7" mc1 5
      = ([.serverGetByID 7 (.ok (some hServerCreated)),
          .volumeGet "mc1-vol" (.ok (some ⟨5, "mc1-vol"⟩)),
          .volumeDetach ⟨5, "mc1-vol"⟩ (.error "volume not found")],
         .returned (some "volume not found")) := by
  decide

/-- Claim C6, as amended: when the lookup of the volume `{name}-vol` returns
no volume, `Hetzner.DeleteServer` issues no detach and no volume-delete call,
deletes the server it looked up, looks up and deletes the SSH key, and returns
nil when the server and the key are found and these calls succeed; when the
detach call fails (not found included), it returns that error and the detach
call is its last call. -/
theorem Hetzner_DeleteServer_volume_not_found (env : HEnv) (id : String) (args : ServerArgs)
    (fuel : Nat) :
    (∀ (server : HServer) (key : HSSHKey),
      env.serverGetByID 0 (env.atoi id) = .ok (some server) →
      env.volumeGet (args.name ++ "-vol") = .ok none →
      env.serverDelete server = none →
      env.sshKeyGet (args.name ++ "-ssh") = .ok (some key) →
      env.sshKeyDelete key = none →
      Hetzner.DeleteServer env id args fuel
        = ([.serverGetByID (env.atoi id) (.ok (some server)),
            .volumeGet (args.name ++ "-vol") (.ok none),
            .serverDelete server none,
            .sshKeyGet (args.name ++ "-ssh") (.ok (some key)),
            .sshKeyDelete key none], .returned none)) ∧
    (∀ (server : Option HServer) (volume : HVolume) (err : Error),
      env.serverGetByID 0 (env.atoi id) = .ok server →
      env.volumeGet (args.name ++ "-vol") = .ok (some volume) →
      env.volumeDetach volume = .error err →
      Hetzner.DeleteServer env id args fuel
        = ([.serverGetByID (env.atoi id) (.ok server),
            .volumeGet (args.name ++ "-vol") (.ok (some volume)),
            .volumeDetach volume (.error err)], .returned (some err))) := by
  constructor
  · intro server key h1 h2 h3 h4 h5
    rw [Hetzner_DeleteServer_no_volume env id args fuel (some server) h1 h2,
      Hetzner_deleteInstance_keyDelete env args _ server key h3 h4, h5]
    rfl
  · intro server volume err h1 h2 h3
    exact Hetzner_DeleteServer_detach_error env id args fuel server volume err h1 h2 h3

theorem Hetzner_DeleteServer_volume_not_found_witness :
    Hetzner.DeleteServer hetznerNoVolume "7" mc1 5
      = ([.serverGetByID (hetznerNoVolume.atoi "7") (.ok (some hServerCreated)),
          .volumeGet (mc1.name ++ "-vol") (.ok none),
          .serverDelete hServerCreated none,
          .sshKeyGet (mc1.name ++ "-ssh") (.ok (some ⟨3, "mc1-ssh"⟩)),
          .sshKeyDelete ⟨3, "mc1-ssh"⟩ none], .returned none) ∧
    Hetzner.DeleteServer hetznerDetachNotFound "7" mc1 5
      = ([.serverGetByID (hetznerDetachNotFound.atoi "7") (.ok (some hServerCreated)),
          .volumeGet (mc1.name ++ "-vol") (.ok (some ⟨5, "mc1-vol"⟩)),
          .volumeDetach ⟨5, "mc1-vol"⟩ (.error "volume not found")],
         .returned (some "volume not found")) :=
  ⟨(Hetzner_DeleteServer_volume_not_found hetznerNoVolume "7" mc1 5).1
      hServerCreated ⟨3, "mc1-ssh"⟩
      (by decide) (by decide) (by decide) (by decide) (by decide),
   (Hetzner_DeleteServer_volume_not_found hetznerDetachNotFound "7" mc1 5).2
      (some hServerCreated) ⟨5, "mc1-vol"⟩ "volume not found"
      (by decide) (by decide) (by decide)⟩

/-- Claim C8 as stated fails for Vultr: for an id the provider has no instance
for, `Vultr.DeleteServer` has deleted the SSH key before the instance-delete
call reports the instance missing. -/
theorem Vultr_DeleteServer_missing_instance :
    Vultr.DeleteServer vultrNoInstance "i-404" mc1
      = ([.sshKeyList (.ok [⟨"k0", "other-ssh"⟩, ⟨"k1", "mc1-ssh"⟩]),
          .sshKeyDelete "k1" none,
          .instanceDelete "i-404" (some "instance not found")],
         .returned (some "instance not found")) := by
  decide

theorem Vultr_deleteKey_first_match (env : VEnv) (args : ServerArgs)
    (before : List VSSHKey) (sshKey : VSSHKey) (after : List VSSHKey)
    (hbefore : ∀ k ∈ before, k.Name ≠ args.name ++ "-ssh")
    (hname : sshKey.Name = args.name ++ "-ssh") :
    Vultr.deleteKey env args (before ++ sshKey :: after)
      = ([.sshKeyDelete sshKey.ID (env.sshKeyDelete sshKey.ID)], env.sshKeyDelete sshKey.ID) := by
  induction before with
  | nil => simp [Vultr.deleteKey, hname]
  | cons k rest ih =>
    have hk := hbefore k (List.mem_cons_self _ _)
    simp only [List.cons_append, Vultr.deleteKey, hk, if_false]
    exact ih (fun x hx => hbefore x (List.mem_cons_of_mem _ hx))

theorem Vultr_deleteKey_no_match (env : VEnv) (args : ServerArgs) (sshKeys : List VSSHKey)
    (hnone : ∀ k ∈ sshKeys, k.Name ≠ args.name ++ "-ssh") :
    Vultr.deleteKey env args sshKeys = ([], none) := by
  induction sshKeys with
  | nil => rfl
  | cons k rest ih =>
    have hk := hnone k (List.mem_cons_self _ _)
    simp only [Vultr.deleteKey, hk, if_false]
    exact ih (fun x hx => hnone x (List.mem_cons_of_mem _ hx))

/-- Claim C8, as amended, for the Vultr adapter: `Vultr.DeleteServer` looks no
instance up.  For an id the provider has no instance for, so that the
instance-delete call fails, the method first lists the SSH keys and deletes
the first listed key named `{name}-ssh`, then issues the instance-delete call
and returns its error; when no listed key has that name, the instance-delete
call follows the listing directly.  These are all its calls. -/
theorem Vultr_DeleteServer_absent_instance (env : VEnv) (id : String) (args : ServerArgs)
    (err : Error) (hdel : env.instanceDelete id = some err) :
    (∀ before sshKey after, env.sshKeyList = .ok (before ++ sshKey :: after) →
      (∀ k ∈ before, k.Name ≠ args.name ++ "-ssh") →
      sshKey.Name = args.name ++ "-ssh" →
      env.sshKeyDelete sshKey.ID = none →
      Vultr.DeleteServer env id args
        = ([.sshKeyList (.ok (before ++ sshKey :: after)),
            .sshKeyDelete sshKey.ID none,
            .instanceDelete id (some err)], .returned (some err))) ∧
    (∀ sshKeys, env.sshKeyList = .ok sshKeys →
      (∀ k ∈ sshKeys, k.Name ≠ args.name ++ "-ssh") →
      Vultr.DeleteServer env id args
        = ([.sshKeyList (.ok sshKeys), .instanceDelete id (some err)],
           .returned (some err))) := by
  constructor
  · intro before sshKey after h1 hbefore hname hkey
    have hloop := Vultr_deleteKey_first_match env args before sshKey after hbefore hname
    rw [hkey] at hloop
    rw [Vultr_DeleteServer_instanceDelete env id args _ h1 (by rw [hloop]), hloop, hdel]
    rfl
  · intro sshKeys h1 hnone
    have hloop := Vultr_deleteKey_no_match env args sshKeys hnone
    rw [Vultr_DeleteServer_instanceDelete env id args _ h1 (by rw [hloop]), hloop, hdel]
    rfl

theorem Vultr_DeleteServer_absent_instance_witness :
    Vultr.DeleteServer vultrNoInstance "i-404" mc1
      = ([.sshKeyList (.ok ([⟨"k0", "other-ssh"⟩] ++ ⟨"k1", "mc1-ssh"⟩ :: [])),
          .sshKeyDelete "k1" none,
          .instanceDelete "i-404" (some "instance not found")],
         .returned (some "instance not found")) ∧
    Vultr.DeleteServer { vultrNoInstance with sshKeyList := .ok [⟨"k0", "other-ssh"⟩] }
        "i-404" mc1
      = ([.sshKeyList (.ok [⟨"k0", "other-ssh"⟩]),
          .instanceDelete "i-404" (some "instance not found")],
         .returned (some "instance not found")) :=
  ⟨(Vultr_DeleteServer_absent_instance vultrNoInstance "i-404" mc1 "instance not found"
      (by decide)).1 [⟨"k0", "other-ssh"⟩] ⟨"k1", "mc1-ssh"⟩ []
      (by decide) (by decide) (by decide) (by decide),
   (Vultr_DeleteServer_absent_instance
      { vultrNoInstance with sshKeyList := .ok [⟨"k0", "other-ssh"⟩] } "i-404" mc1
      "instance not found" (by decide)).2 [⟨"k0", "other-ssh"⟩] (by decide) (by decide)⟩

/-- The Hetzner side of C8: when the lookup returns no server (a nil record
and a nil error), `Hetzner.DeleteServer` does not return at that step: its
next call is the lookup of the volume, and it never returns nil, since the nil
server is dereferenced by `Server.Delete` once the volume steps are through. -/
theorem Hetzner_DeleteServer_missing_server (env : HEnv) (id : String) (args : ServerArgs)
    (fuel : Nat) (h1 : env.serverGetByID 0 (env.atoi id) = .ok none) :
    (∃ rest, (Hetzner.DeleteServer env id args fuel).1
      = .serverGetByID (env.atoi id) (.ok none)
        :: .volumeGet (args.name ++ "-vol") (env.volumeGet (args.name ++ "-vol")) :: rest) ∧
    (Hetzner.DeleteServer env id args fuel).2 ≠ .returned none := by
  have hfirst : ∃ rest, (Hetzner.DeleteServer env id args fuel).1
      = .serverGetByID (env.atoi id) (.ok none)
        :: .volumeGet (args.name ++ "-vol") (env.volumeGet (args.name ++ "-vol")) :: rest := by
    cases h2 : env.volumeGet (args.name ++ "-vol") with
    | error err =>
      exact ⟨[], by rw [Hetzner_DeleteServer_volumeGet_error env id args fuel none err h1 h2]⟩
    | ok v =>
      cases v with
      | none =>
        rw [Hetzner_DeleteServer_no_volume env id args fuel none h1 h2,
          Hetzner_deleteInstance_nil_server]
        exact ⟨[], rfl⟩
      | some volume =>
        cases h3 : env.volumeDetach volume with
        | error err =>
          rw [Hetzner_DeleteServer_detach_error env id args fuel none volume err h1 h2 h3]
          exact ⟨_, rfl⟩
        | ok res =>
          rw [Hetzner_DeleteServer_detached env id args fuel none volume res h1 h2 h3]
          cases (Hetzner.detachPoll env res.ID fuel 0).2 with
          | failed err => exact ⟨_, rfl⟩
          | panicked => exact ⟨_, rfl⟩
          | running => exact ⟨_, rfl⟩
          | done u =>
            cases h4 : env.volumeDelete volume with
            | some err => exact ⟨_, rfl⟩
            | none =>
              simp only [Hetzner_deleteInstance_nil_server]
              exact ⟨_, rfl⟩
  refine ⟨hfirst, fun hret => ?_⟩
  obtain ⟨rest, hrest⟩ := hfirst
  rcases Hetzner_DeleteServer_success env id args fuel hret with
    ⟨server, key, hs⟩ | ⟨server, volume, res, polls, action, key, hs, _, _⟩
  · rw [hs] at hrest
    simp at hrest
  · rw [hs] at hrest
    simp at hrest

/-- The Hetzner side of C8 when no volume is found either: the method panics
after the two lookups. -/
theorem Hetzner_DeleteServer_missing_server_panics (env : HEnv) (id : String)
    (args : ServerArgs) (fuel : Nat) (h1 : env.serverGetByID 0 (env.atoi id) = .ok none)
    (h2 : env.volumeGet (args.name ++ "-vol") = .ok none) :
    Hetzner.DeleteServer env id args fuel
      = ([.serverGetByID (env.atoi id) (.ok none),
          .volumeGet (args.name ++ "-vol") (.ok none)], .panicked) := by
  rw [Hetzner_DeleteServer_no_volume env id args fuel none h1 h2,
    Hetzner_deleteInstance_nil_server]

theorem Hetzner_detachPoll_failed_action (fuel n : Nat) :
    Hetzner.detachPoll hetznerDetachFailed 31 fuel n
      = (List.replicate fuel (.actionGetByID 31 (.ok (some ⟨31, "error"⟩))), .running) := by
  induction fuel generalizing n with
  | zero => rfl
  | succ fuel ih =>
    have hr : hetznerDetachFailed.actionGetByID n 31 = .ok (some ⟨31, "error"⟩) := rfl
    have hs : ¬ ("error" = "success") := by decide
    simp only [Hetzner.detachPoll, hr, hs, if_false, ih (n + 1), List.replicate_succ]

/-- Claim C9, at the input where the code departs from it: when the detach
action has failed and every poll reports it in status `error`, a terminal
status, the loop of `Hetzner.DeleteServer` goes on polling: whatever the
fuel, all of it is spent on polls and the method has not returned. -/
theorem Hetzner_DeleteServer_polls_failed_action (fuel : Nat) :
    Hetzner.DeleteServer hetznerDetachFailed "7" mc1 fuel
      = ([.serverGetByID 7 (.ok (some hServerCreated)),
          .volumeGet "mc1-vol" (.ok (some ⟨5, "mc1-vol"⟩)),
          .volumeDetach ⟨5, "mc1-vol"⟩ (.ok ⟨31, "running"⟩)]
          ++ List.replicate fuel (.actionGetByID 31 (.ok (some ⟨31, "error"⟩))),
         .running) := by
  have h := Hetzner_DeleteServer_detached hetznerDetachFailed "7" mc1 fuel
    (some hServerCreated) ⟨5, "mc1-vol"⟩ ⟨31, "running"⟩ (by decide) (by decide) (by decide)
  rw [h, Hetzner_detachPoll_failed_action]
  have h7 : hetznerDetachFailed.atoi "7" = 7 := by decide
  have hv : mc1.name ++ "-vol" = "mc1-vol" := by decide
  simp only [h7, hv]

/-! ## CreateServer -/

theorem Hetzner_createPoll_calls (env : HEnv) (id : Int) (fuel n : Nat) :
    ∀ ev ∈ (Hetzner.createPoll env id fuel n).1, ∃ r, ev = .serverGetByID id r := by
  induction fuel generalizing n with
  | zero => simp [Hetzner.createPoll]
  | succ fuel ih =>
    unfold Hetzner.createPoll
    cases hr : env.serverGetByID n id with
    | error err => simp
    | ok a =>
      cases a with
      | none => simp
      | some server =>
        by_cases hs : server.Status = ServerStatusRunning
        · simp [hs]
        · simp only [hs, if_false, List.mem_cons, forall_eq_or_imp]
          exact ⟨⟨_, rfl⟩, ih (n + 1)⟩

/-- The call log of the second half of `Hetzner.CreateServer`: either no
create request is submitted and nothing is returned, or the request is
`Hetzner.requestOpts`, it follows the two catalogue lookups, only polls follow
it, and a returned result is the normalization of the record that the create
request answered. -/
theorem Hetzner_createInstance_log (env : HEnv) (args : ServerArgs) (fuel : Nat)
    (pre0 : List HEvent) (key : HSSHKey) (location : Option HLocation)
    (volume : HVolumeCreateResult) (mount : String) :
    ((∀ z ∈ (Hetzner.createInstance env args fuel pre0 key location volume mount).1,
        z ∈ pre0 ∨ z.isServerCreate = false) ∧
      ∀ res err, (Hetzner.createInstance env args fuel pre0 key location volume mount).2
        ≠ .returned (some res, err)) ∨
    ∃ userData image plan rest,
      (Hetzner.createInstance env args fuel pre0 key location volume mount).1
        = (pre0 ++ [.imageGetByName "ubuntu-22.04" (.ok image),
                    .serverTypeGetByName args.size (.ok plan)])
          ++ .serverCreate (Hetzner.requestOpts env args key location volume userData image plan)
              (env.serverCreate
                (Hetzner.requestOpts env args key location volume userData image plan)) :: rest
      ∧ (∀ z ∈ rest, z.isServerCreate = false)
      ∧ ∀ res err, (Hetzner.createInstance env args fuel pre0 key location volume mount).2
          = .returned (some res, err) →
          ∃ server, env.serverCreate
              (Hetzner.requestOpts env args key location volume userData image plan) = .ok server
            ∧ res = hetznerResult server ∧ err = none := by
  cases h1 : env.getTemplate args mount (env.templateCloudConfigName args.proxyServer) with
  | error e =>
    left
    simp only [Hetzner.createInstance, h1]
    exact ⟨fun z hz => Or.inl hz, by simp⟩
  | ok userData =>
    cases h2 : env.imageGetByName "ubuntu-22.04" with
    | error e =>
      left
      simp only [Hetzner.createInstance, h1, h2]
      refine ⟨fun z hz => ?_, by simp⟩
      rcases List.mem_append.mp hz with h | h
      · exact Or.inl h
      · simp only [List.mem_singleton] at h
        subst h
        exact Or.inr rfl
    | ok image =>
      cases h3 : env.serverTypeGetByName args.size with
      | error e =>
        left
        simp only [Hetzner.createInstance, h1, h2, h3]
        refine ⟨fun z hz => ?_, by simp⟩
        rcases List.mem_append.mp hz with h | h
        · exact Or.inl h
        · simp only [List.mem_cons, List.mem_singleton, List.not_mem_nil, or_false] at h
          rcases h with rfl | rfl <;> exact Or.inr rfl
      | ok plan =>
        right
        cases h4 : env.serverCreate
            (Hetzner.requestOpts env args key location volume userData image plan) with
        | error e =>
          refine ⟨userData, image, plan, [], ?_, by simp, ?_⟩
          · simp [Hetzner.createInstance, h1, h2, h3, h4]
          · simp [Hetzner.createInstance, h1, h2, h3, h4]
        | ok server =>
          refine ⟨userData, image, plan, (Hetzner.createPoll env server.ID fuel 0).1, ?_, ?_, ?_⟩
          · simp only [Hetzner.createInstance, h1, h2, h3, h4]
            cases (Hetzner.createPoll env server.ID fuel 0).2 <;> simp
          · intro z hz
            obtain ⟨r, rfl⟩ := Hetzner_createPoll_calls env server.ID fuel 0 z hz
            rfl
          · intro res err
            simp only [Hetzner.createInstance, h1, h2, h3, h4]
            cases (Hetzner.createPoll env server.ID fuel 0).2 <;> simp
            intro hres herr
            exact ⟨hres.symm, herr.symm⟩

theorem Hetzner_CreateServer_with_volume (env : HEnv) (args : ServerArgs) (fuel : Nat)
    (publicKey : String) (key : HSSHKey) (location : Option HLocation)
    (volume : HVolumeCreateResult) (hv : args.volumeSize > 0)
    (h0 : env.getSSHPublicKey args = .ok publicKey)
    (h1 : env.sshKeyCreate (args.name ++ "-ssh") publicKey = .ok key)
    (h2 : env.locationGet args.region = .ok location)
    (h3 : env.volumeCreate ⟨args.name ++ "-vol", args.volumeSize, location, "ext4"⟩
      = .ok volume) :
    Hetzner.CreateServer env args fuel
      = Hetzner.createInstance env args fuel
          [.sshKeyCreate (args.name ++ "-ssh") publicKey (.ok key),
           .locationGet args.region (.ok location),
           .volumeCreate ⟨args.name ++ "-vol", args.volumeSize, location, "ext4"⟩ (.ok volume)]
          key location volume "sdb" := by
  simp [Hetzner.CreateServer, h0, h1, h2, h3, hv]

theorem Hetzner_CreateServer_without_volume (env : HEnv) (args : ServerArgs) (fuel : Nat)
    (publicKey : String) (key : HSSHKey) (location : Option HLocation)
    (hv : ¬ args.volumeSize > 0)
    (h0 : env.getSSHPublicKey args = .ok publicKey)
    (h1 : env.sshKeyCreate (args.name ++ "-ssh") publicKey = .ok key)
    (h2 : env.locationGet args.region = .ok location) :
    Hetzner.CreateServer env args fuel
      = Hetzner.createInstance env args fuel
          [.sshKeyCreate (args.name ++ "-ssh") publicKey (.ok key),
           .locationGet args.region (.ok location)]
          key location ⟨none⟩ "" := by
  simp [Hetzner.CreateServer, h0, h1, h2, hv]

/-- Claim C4 as stated fails: in this account the SSH key is created and the
volume-creation call then fails; `Hetzner.CreateServer` returns the error of
the volume-creation call, which is its last call: no call deletes the SSH key. -/
theorem Hetzner_CreateServer_leaves_key :
    mc1.volumeSize > 0 ∧
    Hetzner.CreateServer hetznerVolumeLimit mc1 5
      = ([.sshKeyCreate "mc1-ssh" "ssh-ed25519 AAAA" (.ok ⟨3, "mc1-ssh"⟩),
          .locationGet "fsn1" (.ok (some ⟨"fsn1"⟩)),
          .volumeCreate ⟨"mc1-vol", 10, some ⟨"fsn1"⟩, "ext4"⟩ (.error "volume limit exceeded")],
         .returned (none, some "volume limit exceeded")) := by
  decide

/-- Claim C4, as amended: for a descriptor with a positive volume size, when
the SSH key was created and the volume-creation call then fails,
`Hetzner.CreateServer` returns the error of the volume-creation call, and that
call is its last call; the SSH key is not deleted. -/
theorem Hetzner_CreateServer_volume_error (env : HEnv) (args : ServerArgs) (fuel : Nat)
    (publicKey : String) (key : HSSHKey) (location : Option HLocation) (err : Error)
    (hv : args.volumeSize > 0)
    (h0 : env.getSSHPublicKey args = .ok publicKey)
    (h1 : env.sshKeyCreate (args.name ++ "-ssh") publicKey = .ok key)
    (h2 : env.locationGet args.region = .ok location)
    (h3 : env.volumeCreate ⟨args.name ++ "-vol", args.volumeSize, location, "ext4"⟩
      = .error err) :
    Hetzner.CreateServer env args fuel
      = ([.sshKeyCreate (args.name ++ "-ssh") publicKey (.ok key),
          .locationGet args.region (.ok location),
          .volumeCreate ⟨args.name ++ "-vol", args.volumeSize, location, "ext4"⟩ (.error err)],
         .returned (none, some err)) := by
  simp [Hetzner.CreateServer, h0, h1, h2, h3, hv]

theorem Hetzner_CreateServer_volume_error_witness :
    Hetzner.CreateServer hetznerVolumeLimit mc1 5
      = ([.sshKeyCreate (mc1.name ++ "-ssh") "ssh-ed25519 AAAA" (.ok ⟨3, "mc1-ssh"⟩),
          .locationGet mc1.region (.ok (some ⟨"fsn1"⟩)),
          .volumeCreate ⟨mc1.name ++ "-vol", mc1.volumeSize, some ⟨"fsn1"⟩, "ext4"⟩
            (.error "volume limit exceeded")],
         .returned (none, some "volume limit exceeded")) :=
  Hetzner_CreateServer_volume_error hetznerVolumeLimit mc1 5 "ssh-ed25519 AAAA"
    ⟨3, "mc1-ssh"⟩ (some ⟨"fsn1"⟩) "volume limit exceeded"
    (by decide) (by decide) (by decide) (by decide) (by decide)

/-- Claim C5, as amended: for a descriptor with a positive volume size, in
every run of `Hetzner.CreateServer` the server-create request comes after a
successful volume-create call for the name `{name}-vol`, and its `Volumes` is
the volume which that call returned. -/
theorem Hetzner_CreateServer_volume_first (env : HEnv) (args : ServerArgs) (fuel : Nat)
    (hv : args.volumeSize > 0) (pre : List HEvent) (opts : HServerCreateOpts)
    (r : Resp HServer) (post : List HEvent)
    (htr : (Hetzner.CreateServer env args fuel).1 = pre ++ .serverCreate opts r :: post) :
    ∃ location volume,
      HEvent.volumeCreate ⟨args.name ++ "-vol", args.volumeSize, location, "ext4"⟩ (.ok volume)
        ∈ pre ∧ opts.Volumes = [volume.Volume] := by
  have hmem : HEvent.serverCreate opts r ∈ (Hetzner.CreateServer env args fuel).1 := by
    rw [htr]; simp
  cases h0 : env.getSSHPublicKey args with
  | error e => simp [Hetzner.CreateServer, h0] at hmem
  | ok publicKey =>
    cases h1 : env.sshKeyCreate (args.name ++ "-ssh") publicKey with
    | error e => simp [Hetzner.CreateServer, h0, h1] at hmem
    | ok key =>
      cases h2 : env.locationGet args.region with
      | error e => simp [Hetzner.CreateServer, h0, h1, h2] at hmem
      | ok location =>
        cases h3 : env.volumeCreate ⟨args.name ++ "-vol", args.volumeSize, location, "ext4"⟩ with
        | error e => simp [Hetzner.CreateServer, h0, h1, h2, h3, hv] at hmem
        | ok volume =>
          rw [Hetzner_CreateServer_with_volume env args fuel publicKey key location volume
            hv h0 h1 h2 h3] at htr hmem
          rcases Hetzner_createInstance_log env args fuel _ key location volume "sdb" with
            ⟨hno, _⟩ | ⟨userData, image, plan, rest, hlog, hrest, _⟩
          · rcases hno _ hmem with h | h
            · simp at h
            · simp [HEvent.isServerCreate] at h
          · rw [hlog] at htr
            obtain ⟨hpre, hev, _⟩ := split_unique HEvent.isServerCreate _ _ _ _ _ _ htr
              (by
                intro z hz
                simp only [List.mem_append, List.mem_cons, List.mem_singleton, List.not_mem_nil,
                  or_false] at hz
                rcases hz with (rfl | rfl | rfl) | (rfl | rfl) <;> rfl)
              hrest rfl
            simp only [HEvent.serverCreate.injEq] at hev
            refine ⟨location, volume, by rw [hpre]; simp, ?_⟩
            rw [hev.1]
            simp [Hetzner.requestOpts, hv]

theorem Hetzner_CreateServer_volume_first_witness :
    ∃ location volume,
      HEvent.volumeCreate ⟨mc1.name ++ "-vol", mc1.volumeSize, location, "ext4"⟩ (.ok volume)
        ∈ [HEvent.sshKeyCreate "mc1-ssh" "ssh-ed25519 AAAA" (.ok ⟨3, "mc1-ssh"⟩),
           .locationGet "fsn1" (.ok (some ⟨"fsn1"⟩)),
           .volumeCreate ⟨"mc1-vol", 10, some ⟨"fsn1"⟩, "ext4"⟩ (.ok ⟨some ⟨5, "mc1-vol"⟩⟩),
           .imageGetByName "ubuntu-22.04" (.ok (some ⟨"ubuntu-22.04"⟩)),
           .serverTypeGetByName "cpx11" (.ok (some ⟨"cpx11"⟩))]
      ∧ (Hetzner.requestOpts hetznerOK mc1 ⟨3, "mc1-ssh"⟩ (some ⟨"fsn1"⟩)
          ⟨some ⟨5, "mc1-vol"⟩⟩ "#cloud-config sdb" (some ⟨"ubuntu-22.04"⟩)
          (some ⟨"cpx11"⟩)).Volumes = [volume.Volume] :=
  Hetzner_CreateServer_volume_first hetznerOK mc1 5 (by decide)
    [.sshKeyCreate "mc1-ssh" "ssh-ed25519 AAAA" (.ok ⟨3, "mc1-ssh"⟩),
     .locationGet "fsn1" (.ok (some ⟨"fsn1"⟩)),
     .volumeCreate ⟨"mc1-vol", 10, some ⟨"fsn1"⟩, "ext4"⟩ (.ok ⟨some ⟨5, "mc1-vol"⟩⟩),
     .imageGetByName "ubuntu-22.04" (.ok (some ⟨"ubuntu-22.04"⟩)),
     .serverTypeGetByName "cpx11" (.ok (some ⟨"cpx11"⟩))]
    (Hetzner.requestOpts hetznerOK mc1 ⟨3, "mc1-ssh"⟩ (some ⟨"fsn1"⟩)
      ⟨some ⟨5, "mc1-vol"⟩⟩ "#cloud-config sdb" (some ⟨"ubuntu-22.04"⟩) (some ⟨"cpx11"⟩))
    (.ok hServerCreated)
    [.serverGetByID 7 (.ok (some hServerCreated)), .serverGetByID 7 (.ok (some hServerRunning))]
    (by decide)

/-- Claim C5 as stated fails for Vultr: for the descriptor `mc1`, whose volume
size is 10, `Vultr.CreateServer` submits the instance-create request after the
SSH-key and startup-script calls only; no call creates a volume and the request
names none. -/
theorem Vultr_CreateServer_creates_no_volume :
    mc1.volumeSize > 0 ∧
    Vultr.CreateServer vultrOK mc1 5
      = ([.sshKeyCreate "ssh-ed25519 AAAA" "mc1-ssh" (.ok ⟨"k1", "mc1-ssh"⟩),
          .startupScriptCreate "IyEvYmluL2Jhc2g=" "mc1-stackscript" "boot" (.ok ⟨"s1"⟩),
          .instanceCreate
            { SSHKeys := ["k1"], ScriptID := "s1", Hostname := "mc1", Label := "mc1",
              Region := "fsn1", Plan := "cpx11", OsID := 1743, Tags := ["minectl", "java"] }
            (.ok ⟨"i-1", "mc1", "fsn1", "0.0.0.0", ["minectl", "java"], "pending"⟩),
          .instanceGet "i-1"
            (.ok (some ⟨"i-1", "mc1", "fsn1", "0.0.0.0", ["minectl", "java"], "pending"⟩)),
          .instanceGet "i-1"
            (.ok (some ⟨"i-1", "mc1", "fsn1", "203.0.113.7", ["minectl", "java"], "active"⟩))],
         .returned (some ⟨"i-1", "mc1", "fsn1", "203.0.113.7", "minectl,java"⟩, none)) := by
  decide

/-- Claim C3, at the input where the code departs from it: the create request
answers a record that is not running and has no address yet, the second poll
observes the server running with its address, and `Hetzner.CreateServer`
returns the normalization of the record of the create request, not of the
record that the poll fetched: the loop assigns its own `server` by `:=`. -/
theorem Hetzner_CreateServer_returns_create_record :
    hServerCreated.Status ≠ ServerStatusRunning ∧
    hetznerOK.serverCreate
        (Hetzner.requestOpts hetznerOK mc1 ⟨3, "mc1-ssh"⟩ (some ⟨"fsn1"⟩)
          ⟨some ⟨5, "mc1-vol"⟩⟩ "#cloud-config sdb" (some ⟨"ubuntu-22.04"⟩) (some ⟨"cpx11"⟩))
      = .ok hServerCreated ∧
    (Hetzner.CreateServer hetznerOK mc1 5).1.getLast?
      = some (.serverGetByID 7 (.ok (some hServerRunning))) ∧
    hetznerResult hServerRunning = ⟨"7", "mc1", "fsn1", "192.0.2.10", "minectl,java"⟩ ∧
    (Hetzner.CreateServer hetznerOK mc1 5).2
      = .returned (some ⟨"7", "mc1", "fsn1", "", "minectl,java"⟩, none) := by
  decide

/-- The Hetzner side of C3 in general: whenever `Hetzner.CreateServer` returns
a result, it is the normalization of the record that the create request
answered, whatever the polls fetched. -/
theorem Hetzner_CreateServer_result (env : HEnv) (args : ServerArgs) (fuel : Nat)
    (res : ResourceResults) (err : Option Error)
    (h : (Hetzner.CreateServer env args fuel).2 = .returned (some res, err)) :
    ∃ opts server, HEvent.serverCreate opts (.ok server) ∈ (Hetzner.CreateServer env args fuel).1
      ∧ res = hetznerResult server ∧ err = none := by
  have key : ∀ pre0 k location volume mount,
      (Hetzner.createInstance env args fuel pre0 k location volume mount).2
        = .returned (some res, err) →
      ∃ opts server, HEvent.serverCreate opts (.ok server)
          ∈ (Hetzner.createInstance env args fuel pre0 k location volume mount).1
        ∧ res = hetznerResult server ∧ err = none := by
    intro pre0 k location volume mount hret
    rcases Hetzner_createInstance_log env args fuel pre0 k location volume mount with
      ⟨_, hno⟩ | ⟨userData, image, plan, rest, hlog, _, hres⟩
    · exact absurd hret (hno res err)
    · obtain ⟨server, hs, hr, he⟩ := hres res err hret
      refine ⟨Hetzner.requestOpts env args k location volume userData image plan, server, ?_, hr, he⟩
      rw [hlog, hs]
      simp
  cases h0 : env.getSSHPublicKey args with
  | error e => simp [Hetzner.CreateServer, h0] at h
  | ok publicKey =>
    cases h1 : env.sshKeyCreate (args.name ++ "-ssh") publicKey with
    | error e => simp [Hetzner.CreateServer, h0, h1] at h
    | ok k =>
      cases h2 : env.locationGet args.region with
      | error e => simp [Hetzner.CreateServer, h0, h1, h2] at h
      | ok location =>
        by_cases hv : args.volumeSize > 0
        · cases h3 : env.volumeCreate ⟨args.name ++ "-vol", args.volumeSize, location, "ext4"⟩ with
          | error e => simp [Hetzner.CreateServer, h0, h1, h2, h3, hv] at h
          | ok volume =>
            rw [Hetzner_CreateServer_with_volume env args fuel publicKey k location volume
              hv h0 h1 h2 h3] at h ⊢
            exact key _ _ _ _ _ h
        · rw [Hetzner_CreateServer_without_volume env args fuel publicKey k location
            hv h0 h1 h2] at h ⊢
          exact key _ _ _ _ _ h

theorem Vultr_createPoll_done (env : VEnv) (fuel n : Nat) (inst fetched : VInstance)
    (h : (Vultr.createPoll env fuel n inst).2 = .done fetched) :
    ∃ polls id, (Vultr.createPoll env fuel n inst).1
        = polls ++ [.instanceGet id (.ok (some fetched))] ∧ fetched.Status = "active" := by
  induction fuel generalizing n inst with
  | zero => simp [Vultr.createPoll] at h
  | succ fuel ih =>
    unfold Vultr.createPoll at h ⊢
    cases hr : env.instanceGet n inst.ID with
    | error err => simp [hr] at h
    | ok a =>
      cases a with
      | none => simp [hr] at h
      | some got =>
        by_cases hs : got.Status = "active"
        · simp only [hr, hs, if_true, LoopExit.done.injEq] at h
          subst h
          exact ⟨[], inst.ID, by simp [hs], hs⟩
        · simp only [hr, hs, if_false] at h
          obtain ⟨polls, id, hp, hst⟩ := ih (n + 1) got h
          exact ⟨VEvent.instanceGet inst.ID (.ok (some got)) :: polls, id, by simp [hs, hp], hst⟩

/-- The Vultr side of C3: whenever `Vultr.CreateServer` returns a result, its
last call is a poll that fetched a record in status `active`, and the result
is the normalization of that record. -/
theorem Vultr_CreateServer_result (env : VEnv) (args : ServerArgs) (fuel : Nat)
    (res : ResourceResults) (err : Option Error)
    (h : (Vultr.CreateServer env args fuel).2 = .returned (some res, err)) :
    ∃ pre id fetched, (Vultr.CreateServer env args fuel).1
        = pre ++ [.instanceGet id (.ok (some fetched))]
      ∧ fetched.Status = "active" ∧ res = vultrResult fetched ∧ err = none := by
  cases h0 : env.getSSHPublicKey args with
  | error e => simp [Vultr.CreateServer, h0] at h
  | ok publicKey =>
    cases h1 : env.sshKeyCreate publicKey (args.name ++ "-ssh") with
    | error e => simp [Vultr.CreateServer, h0, h1] at h
    | ok sshKey =>
      cases h2 : env.getTemplate args "" (env.templateBashName args.proxyServer) with
      | error e => simp [Vultr.CreateServer, h0, h1, h2] at h
      | ok script =>
        cases h3 : env.startupScriptCreate (env.base64 script) (args.name ++ "-stackscript")
            "boot" with
        | error e => simp [Vultr.CreateServer, h0, h1, h2, h3] at h
        | ok startupScript =>
          cases h4 : env.instanceCreate
              { SSHKeys := [sshKey.ID], ScriptID := startupScript.ID, Hostname := args.name,
                Label := args.name, Region := args.region, Plan := args.size, OsID := 1743,
                Tags := [env.InstanceTag, args.edition] } with
          | error e => simp [Vultr.CreateServer, h0, h1, h2, h3, h4] at h
          | ok created =>
            simp only [Vultr.CreateServer, h0, h1, h2, h3, h4] at h ⊢
            cases hp : (Vultr.createPoll env fuel 0 created).2 with
            | failed e => simp [hp] at h
            | panicked => simp [hp] at h
            | running => simp [hp] at h
            | done fetched =>
              obtain ⟨polls, id, hpolls, hst⟩ := Vultr_createPoll_done env fuel 0 created fetched hp
              simp only [hp, Outcome.returned.injEq, Prod.mk.injEq, Option.some.injEq] at h
              simp only [hp]
              refine ⟨[.sshKeyCreate publicKey (args.name ++ "-ssh") (.ok sshKey),
                  .startupScriptCreate (env.base64 script) (args.name ++ "-stackscript") "boot"
                    (.ok startupScript),
                  .instanceCreate
                    { SSHKeys := [sshKey.ID], ScriptID := startupScript.ID,
                      Hostname := args.name, Label := args.name, Region := args.region,
                      Plan := args.size, OsID := 1743,
                      Tags := [env.InstanceTag, args.edition] } (.ok created)] ++ polls,
                id, fetched, ?_, hst, h.1.symm, h.2.symm⟩
              rw [hpolls, List.append_assoc]

/-- The half of C9 that holds: when the polls before the `k`-th see the
action in a status other than `success` and the `k`-th sees `success`, the
loop of `Hetzner.DeleteServer` ends after `k + 1` polls, given fuel for them. -/
theorem Hetzner_detachPoll_stops_at_success (env : HEnv) (id : Int) (k fuel n : Nat)
    (hbefore : ∀ j < k, ∃ a, env.actionGetByID (n + j) id = .ok (some a) ∧ a.Status ≠ "success")
    (hat : ∃ a, env.actionGetByID (n + k) id = .ok (some a) ∧ a.Status = "success")
    (hfuel : k < fuel) :
    (Hetzner.detachPoll env id fuel n).2 = .done () ∧
    (Hetzner.detachPoll env id fuel n).1.length = k + 1 := by
  induction k generalizing fuel n with
  | zero =>
    obtain ⟨a, ha, hs⟩ := hat
    cases fuel with
    | zero => omega
    | succ fuel =>
      simp only [Nat.add_zero] at ha
      simp [Hetzner.detachPoll, ha, hs]
  | succ k ih =>
    cases fuel with
    | zero => omega
    | succ fuel =>
      obtain ⟨a, ha, hs⟩ := hbefore 0 (by omega)
      simp only [Nat.add_zero] at ha
      have hrec := ih fuel (n + 1)
        (fun j hj => by
          have := hbefore (j + 1) (by omega)
          rwa [show n + (j + 1) = n + 1 + j by omega] at this)
        (by rwa [show n + (k + 1) = n + 1 + k by omega] at hat)
        (by omega)
      simp only [Hetzner.detachPoll, ha, hs, if_false, List.length_cons]
      exact ⟨hrec.1, by rw [hrec.2]⟩

end Minectl
